import Mathlib

/-!
# LVM2 physical-volume information cache (GParted)

A shallow embedding of `src/LVM2_PV_Info.cc` and of the `lvm2_pv` shim.

* `Glib::ustring` is `String`; `length()` and `operator[]` count characters.
* `Byte_Value` (a 64-bit signed integer) is `Int`; the only place where the
  width is visible is the saturation performed by `g_ascii_strtoll`.
* The four static data members of `LVM2_PV_Info` are the first four fields of
  the structure `LVM2_PV_Info`; every method takes the state and returns the
  new state next to its result.  A fifth, ghost field records the external
  commands that were executed.
* The host (search path, external commands) is an explicit `Env`.
* The `for` loops over `unsigned int i < size()` are a recursion over the rows
  (`get_pv_attr_by_path`) or a search over the index range (`has_active_lvs`,
  `is_vg_exported`), which is the same loop whenever the cache holds fewer than
  `2^32` rows.
-/

namespace GParted

/-! ## enum PV_ATTRIBUTE -/

/-- Index of `pv_name` in a cache row. -/
def PVATTR_PV_NAME : Nat := 0
/-- Index of `pv_free` in a cache row. -/
def PVATTR_PV_FREE : Nat := 1
/-- Index of `vg_name` in a cache row. -/
def PVATTR_VG_NAME : Nat := 2
/-- Index of `vg_attr` in a cache row. -/
def PVATTR_VG_BITS : Nat := 3
/-- Index of `lv_name` in a cache row. -/
def PVATTR_LV_NAME : Nat := 4
/-- Index of `lv_attr` in a cache row. -/
def PVATTR_LV_BITS : Nat := 5

/-! ## Helpers of the host application and of GLib -/

namespace Utils

/-- Cuts a character sequence at every delimiter; empty pieces are kept, so the
result always has one piece more than there are delimiters. -/
def splitChars (delimiters : List Char) : List Char → List (List Char)
  | [] => [[]]
  | c :: cs =>
    if c ∈ delimiters then [] :: splitChars delimiters cs
    else
      match splitChars delimiters cs with
      | [] => [[c]]
      | w :: ws => (c :: w) :: ws

/-- Modelled from the spec: `Utils::split` (defined in the host application's
`Utils.cc`, outside `src/`).  A row holds "six comma-separated fields ... some
optionally empty": the string is cut at every delimiter and empty fields are
kept, as in the rows `"/dev/sda10,2147483648,,r-----,,"` of the source's data
model comment. -/
def split (str delimiters : String) : List String :=
  (splitChars delimiters.toList str.toList).map String.mk

/-- The scan of `Utils::tokenize`: `cur` holds, last character first, the token
being read; a delimiter ends the token, and a token is stored only when it has
at least one character. -/
def tokenizeChars (delimiters : List Char) : List Char → List Char → List (List Char)
  | cur, [] => if cur = [] then [] else [cur.reverse]
  | cur, c :: cs =>
    if c ∈ delimiters then
      if cur = [] then tokenizeChars delimiters [] cs
      else cur.reverse :: tokenizeChars delimiters [] cs
    else tokenizeChars delimiters (c :: cur) cs

/-- Modelled from the spec: `Utils::tokenize` (defined in `Utils.cc`, outside
`src/`).  The spec's words are "splits the output into lines" that become the
rows, "one row per PV, or one row per PV×LV pair", as the nine rows of the
source's data model comment: the tokens are the maximal runs of characters other
than the delimiters, so an empty line, such as the one after the final newline
of a listing, gives no token. -/
def tokenize (str delimiters : String) : List String :=
  (tokenizeChars delimiters.toList [] str.toList).map String.mk

/-- The characters `Utils::trim` removes by default. -/
def isTrimChar (c : Char) : Bool :=
  c == ' ' || c == '\t' || c == '\r' || c == '\n'

/-- Modelled from the spec: `Utils::trim` (defined in `Utils.cc`, outside
`src/`).  The spec's words are "trims each" line: leading and trailing
whitespace is removed. -/
def trim (src : String) : String :=
  String.mk ((src.toList.dropWhile isTrimChar).reverse.dropWhile isTrimChar).reverse

end Utils

/-- Modelled from the spec: the translation macro `_( )` (gettext, outside
`src/`).  Translation is out of the spec's scope and the messages are "fixed"
texts, so a message id stands for itself. -/
def tr (msgid : String) : String := msgid

/-- GLib's `ISSPACE` as used by `g_ascii_strtoll`: space, form feed, newline,
carriage return, tab, vertical tab. -/
def ISSPACE (c : Char) : Bool :=
  c == ' ' || c == '\x0c' || c == '\n' || c == '\r' || c == '\t' || c == '\x0b'

/-- The digit loop of `g_ascii_strtoll` in base 10: accumulates the value of the
leading digits and stops at the first character that is not a digit.  Returns
the accumulated value and the unread rest. -/
def parse_digits : Nat → List Char → Nat × List Char
  | acc, [] => (acc, [])
  | acc, c :: cs =>
    if '0' ≤ c ∧ c ≤ '9' then parse_digits (acc * 10 + (c.toNat - '0'.toNat)) cs
    else (acc, c :: cs)

/-- Largest `gint64`. -/
def G_MAXINT64 : Int := 9223372036854775807
/-- Smallest `gint64`. -/
def G_MININT64 : Int := -9223372036854775808

/-- GLib's `g_ascii_strtoll (nptr, &endptr, 10)` after its documentation: skips
leading white space, reads an optional sign and the decimal digits that follow.
Returns the value and `endptr` (the unread rest).  When no digit was read the
value is `0` and `endptr` is `nptr`; a value outside the `gint64` range is
replaced by `G_MAXINT64` or `G_MININT64`. -/
def g_ascii_strtoll (nptr : List Char) : Int × List Char :=
  let s := nptr.dropWhile ISSPACE
  let signed : Bool × List Char :=
    match s with
    | '-' :: r => (true, r)
    | '+' :: r => (false, r)
    | _ => (false, s)
  let negative := signed.1
  let save := signed.2
  let conv := parse_digits 0 save
  if conv.2.length = save.length then (0, nptr)
  else if negative = true ∧ (conv.1 : Int) > -G_MININT64 then (G_MININT64, conv.2)
  else if negative = false ∧ (conv.1 : Int) > G_MAXINT64 then (G_MAXINT64, conv.2)
  else if negative = true then (-(conv.1 : Int), conv.2)
  else ((conv.1 : Int), conv.2)

/-- Character `i` of a string (`Glib::ustring::operator[]`); every use is
guarded by a length test. -/
def ustring_at (s : String) (i : Nat) : Char := s.toList.getD i (Char.ofNat 0)

/-! ## The host environment -/

/-- What `Utils::execute_command` hands back: the exit status and the captured
standard output and standard error. -/
structure CommandResult where
  exit_status : Int
  output : String
  error : String
deriving DecidableEq, Repr

/-- The host: `Glib::find_program_in_path` and the outcome of running a command
line. -/
structure Env where
  find_program_in_path : String → String
  run : String → CommandResult

/-! ## The cache -/

/-- The static data members of class `LVM2_PV_Info`, and the ghost log
`commands_run` of the command lines handed to `Utils::execute_command`. -/
structure LVM2_PV_Info where
  lvm2_pv_info_cache_initialized : Bool
  lvm_found : Bool
  lvm2_pv_cache : List String
  error_messages : List String
  commands_run : List String
deriving DecidableEq, Repr

namespace LVM2_PV_Info

/-- The static initialisers: nothing loaded, nothing found, nothing run. -/
def initial : LVM2_PV_Info :=
  { lvm2_pv_info_cache_initialized := false
    lvm_found := false
    lvm2_pv_cache := []
    error_messages := []
    commands_run := [] }

/-- Modelled from the spec: `Utils::execute_command` (defined in `Utils.cc`,
outside `src/`): "run command, capture stdout/stderr, report success/failure".
The command line is appended to the ghost log. -/
def execute_command (env : Env) (s : LVM2_PV_Info) (command : String) :
    CommandResult × LVM2_PV_Info :=
  (env.run command, { s with commands_run := s.commands_run ++ [command] })

/-- The command line of the attribute listing. -/
def pvs_cmd : String :=
  "lvm pvs --config \"log\x7bcommand_names=0\x7d\" --nosuffix --noheadings --separator , --units b -o pv_name,pv_free,vg_name,vg_attr,lv_name,lv_attr"

/-- The three-line advisory stored after a failed load. -/
def load_error_advice : String :=
  tr "An error occurred reading LVM2 configuration!" ++ "\n" ++
  tr "Some or all of the details might be missing or incorrect." ++ "\n" ++
  tr "You should NOT modify any LVM2 PV partitions." ++ "\n"

/-- The advisory of a volume group with missing physical volumes. -/
def partial_vg_advice : String :=
  tr "One or more Physical Volumes belonging to the Volume Group is missing." ++ "\n"

/-- Method `LVM2_PV_Info::set_command_found`. -/
def set_command_found (env : Env) (s : LVM2_PV_Info) : LVM2_PV_Info :=
  { s with lvm_found := decide (env.find_program_in_path "lvm" ≠ "") }

/-- Method `LVM2_PV_Info::load_lvm2_pv_info_cache`.  The test
`! Utils::execute_command( ... )` holds when the exit status is 0. -/
def load_lvm2_pv_info_cache (env : Env) (s : LVM2_PV_Info) : LVM2_PV_Info :=
  let s0 := { s with lvm2_pv_cache := [], error_messages := [] }
  if s0.lvm_found = true then
    let s1 := (execute_command env s0 "lvm vgscan").2
    let cmd := pvs_cmd
    let r := execute_command env s1 cmd
    let res := r.1
    let s2 := r.2
    if res.exit_status = 0 then
      if res.output ≠ "" then
        { s2 with lvm2_pv_cache := (Utils.tokenize res.output "\n").map Utils.trim }
      else s2
    else
      { s2 with
        error_messages :=
          [cmd] ++ (if res.output ≠ "" then [res.output] else [])
            ++ (if res.error ≠ "" then [res.error] else [])
            ++ [load_error_advice] }
  else s0

/-- Method `LVM2_PV_Info::initialize_if_required`. -/
def initialize_if_required (env : Env) (s : LVM2_PV_Info) : LVM2_PV_Info :=
  if s.lvm2_pv_info_cache_initialized = false then
    { load_lvm2_pv_info_cache env (set_command_found env s) with
      lvm2_pv_info_cache_initialized := true }
  else s

/-- Method `LVM2_PV_Info::get_pv_attr_by_path`: linear search, first matching row
decides; a matching row without the entry ends the search (`break`). -/
def get_pv_attr_by_path (lvm2_pv_cache : List String) (path : String) (entry : Nat) : String :=
  match lvm2_pv_cache with
  | [] => ""
  | row :: rest =>
    let pv_attrs := Utils.split row ","
    if PVATTR_PV_NAME < pv_attrs.length ∧ path = pv_attrs.getD PVATTR_PV_NAME "" then
      if entry < pv_attrs.length then pv_attrs.getD entry "" else ""
    else get_pv_attr_by_path rest path entry

/-- Method `LVM2_PV_Info::get_pv_attr_by_row`. -/
def get_pv_attr_by_row (lvm2_pv_cache : List String) (row entry : Nat) : String :=
  if row ≥ lvm2_pv_cache.length then ""
  else
    let pv_attrs := Utils.split (lvm2_pv_cache.getD row "") ","
    if entry < pv_attrs.length then pv_attrs.getD entry "" else ""

/-- Constructor `LVM2_PV_Info()`: no effect on the static state. -/
def construct_default (s : LVM2_PV_Info) : LVM2_PV_Info := s

/-- Constructor `LVM2_PV_Info( bool do_refresh )`. -/
def construct (env : Env) (s : LVM2_PV_Info) (do_refresh : Bool) : LVM2_PV_Info :=
  if do_refresh = true then
    { load_lvm2_pv_info_cache env (set_command_found env s) with
      lvm2_pv_info_cache_initialized := true }
  else s

/-- Method `LVM2_PV_Info::is_lvm2_pv_supported`. -/
def is_lvm2_pv_supported (env : Env) (s : LVM2_PV_Info) : Bool × LVM2_PV_Info :=
  let s1 := if s.lvm2_pv_info_cache_initialized = false then set_command_found env s else s
  (s1.lvm_found, s1)

/-- Method `LVM2_PV_Info::get_vg_name`. -/
def get_vg_name (env : Env) (s : LVM2_PV_Info) (path : String) : String × LVM2_PV_Info :=
  let s1 := initialize_if_required env s
  (get_pv_attr_by_path s1.lvm2_pv_cache path PVATTR_VG_NAME, s1)

/-- Method `LVM2_PV_Info::get_free_bytes`: number of free bytes in the PV, or -1 for
error. -/
def get_free_bytes (env : Env) (s : LVM2_PV_Info) (path : String) : Int × LVM2_PV_Info :=
  let s1 := initialize_if_required env s
  let fb_str := get_pv_attr_by_path s1.lvm2_pv_cache path PVATTR_PV_FREE
  if fb_str ≠ "" then
    let conv := g_ascii_strtoll fb_str.toList
    let free_bytes := conv.1
    let suffix := conv.2
    if free_bytes < 0 ∨ (free_bytes = 0 ∧ suffix = fb_str.toList) then (-1, s1)
    else (free_bytes, s1)
  else (-1, s1)

/-- Method `LVM2_PV_Info::has_active_lvs`: the loop returns `true` at the first
row of the volume group whose `lv_attr` has a non-hyphen 5th character.  The
`pv_attrs` the loop body splits off is never read. -/
def has_active_lvs (env : Env) (s : LVM2_PV_Info) (path : String) : Bool × LVM2_PV_Info :=
  let s1 := initialize_if_required env s
  let vgname := get_pv_attr_by_path s1.lvm2_pv_cache path PVATTR_VG_NAME
  if vgname = "" then (false, s1)
  else
    ((List.range s1.lvm2_pv_cache.length).any (fun i =>
        decide (vgname = get_pv_attr_by_row s1.lvm2_pv_cache i PVATTR_VG_NAME) &&
          (let lv_bits := get_pv_attr_by_row s1.lvm2_pv_cache i PVATTR_LV_BITS
           decide (lv_bits.length ≥ 5) && decide (ustring_at lv_bits 4 ≠ '-'))), s1)

/-- Method `LVM2_PV_Info::is_vg_exported`: the loop returns `true` at the first
row of the volume group whose `vg_attr` has a non-hyphen 3rd character.  The
`pv_attrs` the loop body splits off is never read. -/
def is_vg_exported (env : Env) (s : LVM2_PV_Info) (vgname : String) : Bool × LVM2_PV_Info :=
  let s1 := initialize_if_required env s
  ((List.range s1.lvm2_pv_cache.length).any (fun i =>
      decide (vgname = get_pv_attr_by_row s1.lvm2_pv_cache i PVATTR_VG_NAME) &&
        (let vg_bits := get_pv_attr_by_row s1.lvm2_pv_cache i PVATTR_VG_BITS
         decide (vg_bits.length ≥ 3) && decide (ustring_at vg_bits 2 ≠ '-'))), s1)

/-- Method `LVM2_PV_Info::get_error_messages`. -/
def get_error_messages (env : Env) (s : LVM2_PV_Info) (path : String) :
    List String × LVM2_PV_Info :=
  let s1 := initialize_if_required env s
  if s1.error_messages ≠ [] then (s1.error_messages, s1)
  else
    let vg_bits := get_pv_attr_by_path s1.lvm2_pv_cache path PVATTR_VG_BITS
    if vg_bits.length ≥ 4 ∧ ustring_at vg_bits 3 ≠ '-' then ([partial_vg_advice], s1)
    else ([], s1)

end LVM2_PV_Info

/-! ## Example data -/

/-- The example cache of the data model comment in `LVM2_PV_Info.cc`. -/
def example_cache : List String :=
  [ "/dev/sda10,2147483648,,r-----,,",
    "/dev/sda11,2143289344,GParted-VG1,wz--n-,,",
    "/dev/sda12,1619001344,GParted-VG2,wz--n-,lvol0,-wi---",
    "/dev/sda12,1619001344,GParted-VG2,wz--n-,,",
    "/dev/sda13,830472192,GParted_VG3,wz--n-,lvol0,-wi-a-",
    "/dev/sda13,830472192,GParted_VG3,wz--n-,lvol1,-wi-a-",
    "/dev/sda13,830472192,GParted_VG3,wz--n-,,",
    "/dev/sda14,1828716544,GParted-VG4,wzx-n-,lvol0,-wi---",
    "/dev/sda14,1828716544,GParted-VG4,wzx-n-,," ]

/-- A loaded cache state holding the given rows and no whole-cache error. -/
def loaded (rows : List String) : LVM2_PV_Info :=
  { lvm2_pv_info_cache_initialized := true
    lvm_found := true
    lvm2_pv_cache := rows
    error_messages := []
    commands_run := ["lvm vgscan", LVM2_PV_Info.pvs_cmd] }

/-- A host with `lvm` installed in which every command ends with the given
result. -/
def env_lvm (res : CommandResult) : Env :=
  { find_program_in_path := fun _ => "/sbin/lvm"
    run := fun _ => res }

/-- A host without the `lvm` executable. -/
def env_no_lvm : Env :=
  { find_program_in_path := fun _ => ""
    run := fun _ => { exit_status := 127, output := "", error := "" } }

/-! ## Operations and reachable states -/

/-- The operations a caller can perform on the process-wide cache. -/
inductive Op where
  | construct_default
  | construct (do_refresh : Bool)
  | is_lvm2_pv_supported
  | get_vg_name (path : String)
  | get_free_bytes (path : String)
  | has_active_lvs (path : String)
  | is_vg_exported (vgname : String)
  | get_error_messages (path : String)

/-- The state an operation leaves behind in a given host. -/
def Op.run (env : Env) (s : LVM2_PV_Info) : Op → LVM2_PV_Info
  | .construct_default => LVM2_PV_Info.construct_default s
  | .construct do_refresh => LVM2_PV_Info.construct env s do_refresh
  | .is_lvm2_pv_supported => (LVM2_PV_Info.is_lvm2_pv_supported env s).2
  | .get_vg_name path => (LVM2_PV_Info.get_vg_name env s path).2
  | .get_free_bytes path => (LVM2_PV_Info.get_free_bytes env s path).2
  | .has_active_lvs path => (LVM2_PV_Info.has_active_lvs env s path).2
  | .is_vg_exported vgname => (LVM2_PV_Info.is_vg_exported env s vgname).2
  | .get_error_messages path => (LVM2_PV_Info.get_error_messages env s path).2

/-- The states the program can be in: the static initial state and whatever
any operation, in any host, makes of a reachable state. -/
inductive Reachable : LVM2_PV_Info → Prop where
  | initial : Reachable LVM2_PV_Info.initial
  | step (env : Env) (op : Op) (s : LVM2_PV_Info) : Reachable s → Reachable (op.run env s)

/-- A host with `lvm` installed whose commands fail without output and with an
error text. -/
def env_pvs_fails : Env :=
  env_lvm { exit_status := 5, output := "", error := "  /dev/sdb: read failed" }

/-- The state after a first query in a host whose attribute listing fails. -/
def after_failed_load : LVM2_PV_Info :=
  Op.run env_pvs_fails LVM2_PV_Info.initial (Op.get_vg_name "/dev/sda1")

/-! ## The `lvm2_pv` file system shim (`src/lvm2_pv.cc`)

`set_used_sectors` rounds a floating-point quotient and is left out; the other
methods are below.  `Partition` and `OperationDetail` belong to the host
application and are type parameters. -/

/-- Modelled from the spec: the levels of `FS::Support` (declared in the host
application, outside `src/`).  `NONE` is the "unsupported" level. -/
inductive Support where
  | NONE
  | GPARTED
  | LIBPARTED
  | EXTERNAL
deriving DecidableEq, Repr

/-- Modelled from the spec: the file system types of `enum FILESYSTEM` (declared
in the host application, outside `src/`) that the model names. -/
inductive FILESYSTEM where
  | FS_UNKNOWN
  | FS_LVM2_PV
deriving DecidableEq, Repr

/-- Modelled from the spec: the capability record `struct FS` (declared in the
host application, outside `src/`): the file system type, one support level for
each capability and the size limits.  A fresh record has every capability
"unsupported" (`NONE`) and both limits 0; its file system type is assigned by
the caller before use. -/
structure FS where
  filesystem : FILESYSTEM
  read : Support
  read_label : Support
  write_label : Support
  read_uuid : Support
  write_uuid : Support
  create : Support
  grow : Support
  shrink : Support
  move : Support
  check : Support
  copy : Support
  MIN : Int
  MAX : Int
deriving DecidableEq, Repr

/-- Modelled from the spec: the record the constructor `FS()` leaves (declared
in the host application, outside `src/`). -/
def FS.fresh : FS :=
  { filesystem := FILESYSTEM.FS_UNKNOWN
    read := Support.NONE
    read_label := Support.NONE
    write_label := Support.NONE
    read_uuid := Support.NONE
    write_uuid := Support.NONE
    create := Support.NONE
    grow := Support.NONE
    shrink := Support.NONE
    move := Support.NONE
    check := Support.NONE
    copy := Support.NONE
    MIN := 0
    MAX := 0 }

namespace lvm2_pv

/-- Method `lvm2_pv::get_filesystem_support`. -/
def get_filesystem_support (env : Env) (s : LVM2_PV_Info) : FS × LVM2_PV_Info :=
  let fs : FS := { FS.fresh with filesystem := FILESYSTEM.FS_LVM2_PV }
  let s0 := LVM2_PV_Info.construct_default s
  let r := LVM2_PV_Info.is_lvm2_pv_supported env s0
  if r.1 = true then ({ fs with read := Support.EXTERNAL }, r.2)
  else (fs, r.2)

/-- Method `lvm2_pv::read_label`: returns at once. -/
def read_label {Partition : Type} (s : LVM2_PV_Info) (partition : Partition) :
    Partition × LVM2_PV_Info :=
  (partition, s)

/-- Method `lvm2_pv::write_label`. -/
def write_label {Partition OperationDetail : Type} (s : LVM2_PV_Info)
    (_partition : Partition) (operationdetail : OperationDetail) :
    Bool × OperationDetail × LVM2_PV_Info :=
  (true, operationdetail, s)

/-- Method `lvm2_pv::read_uuid`: empty body. -/
def read_uuid {Partition : Type} (s : LVM2_PV_Info) (partition : Partition) :
    Partition × LVM2_PV_Info :=
  (partition, s)

/-- Method `lvm2_pv::write_uuid`. -/
def write_uuid {Partition OperationDetail : Type} (s : LVM2_PV_Info)
    (_partition : Partition) (operationdetail : OperationDetail) :
    Bool × OperationDetail × LVM2_PV_Info :=
  (true, operationdetail, s)

/-- Method `lvm2_pv::create`. -/
def create {Partition OperationDetail : Type} (s : LVM2_PV_Info)
    (_new_partition : Partition) (operationdetail : OperationDetail) :
    Bool × OperationDetail × LVM2_PV_Info :=
  (true, operationdetail, s)

/-- Method `lvm2_pv::resize`. -/
def resize {Partition OperationDetail : Type} (s : LVM2_PV_Info)
    (_partition_new : Partition) (operationdetail : OperationDetail) (_fill_partition : Bool) :
    Bool × OperationDetail × LVM2_PV_Info :=
  (true, operationdetail, s)

/-- Method `lvm2_pv::move`. -/
def move {Partition OperationDetail : Type} (s : LVM2_PV_Info)
    (_partition_new _partition_old : Partition) (operationdetail : OperationDetail) :
    Bool × OperationDetail × LVM2_PV_Info :=
  (true, operationdetail, s)

/-- Method `lvm2_pv::copy`. -/
def copy {OperationDetail : Type} (s : LVM2_PV_Info)
    (_src_part_path _dest_part_path : String) (operationdetail : OperationDetail) :
    Bool × OperationDetail × LVM2_PV_Info :=
  (true, operationdetail, s)

/-- Method `lvm2_pv::check_repair`. -/
def check_repair {Partition OperationDetail : Type} (s : LVM2_PV_Info)
    (_partition : Partition) (operationdetail : OperationDetail) :
    Bool × OperationDetail × LVM2_PV_Info :=
  (true, operationdetail, s)

end lvm2_pv

/-- A host with `lvm` installed whose listing succeeds with two lines. -/
def env_pvs_ok : Env :=
  env_lvm { exit_status := 0,
            output := "  /dev/sda10,2147483648,,r-----,,\n  /dev/sda11,2143289344,GParted-VG1,wz--n-,,\n",
            error := "" }

/-- A host with `lvm` installed whose listing succeeds with two lines and an
empty line between them. -/
def env_pvs_blank_line : Env :=
  env_lvm { exit_status := 0,
            output := "  /dev/sda10,2147483648,,r-----,,\n\n  /dev/sda11,2143289344,GParted-VG1,wz--n-,,\n",
            error := "" }

/-! ## Reference definitions, after the words of the specification -/

namespace Ref

/-- The comma-separated fields of a row. -/
def fields (row : String) : List String := Utils.split row ","

/-- Field `k` of a row; an absent field reads as the empty string. -/
def field (row : String) (k : Nat) : String := (fields row).getD k ""

/-- The first row whose first field (`pv_path`) equals `path`. -/
def first_row (rows : List String) (path : String) : Option String :=
  rows.find? (fun row => decide ((fields row).head? = some path))

/-- Field `k` of the first row whose `pv_path` equals `path`; the empty string
when no row matches or the field is absent. -/
def attr_of_first_row (rows : List String) (path : String) (k : Nat) : String :=
  match first_row rows path with
  | none => ""
  | some row => field row k

/-- The number a sequence of decimal digits denotes, in positional notation. -/
def decimalValue : List Char → Nat
  | [] => 0
  | c :: cs => (c.toNat - 48) * 10 ^ cs.length + decimalValue cs

/-- The leading decimal integer of a text: optional white space, an optional
sign, then at least one digit; `none` when no digit stands there. -/
def leadingInteger (s : List Char) : Option Int :=
  let t := s.dropWhile ISSPACE
  let u := if t.head? = some '-' ∨ t.head? = some '+' then t.tail else t
  let ds := u.takeWhile Char.isDigit
  if ds = [] then none
  else if t.head? = some '-' then some (-(decimalValue ds : Int))
  else some (decimalValue ds : Int)

/-- The claim's `getFreeBytes`: -1 when no row matches, the `pv_free` field is
empty, no integer starts it or the integer is negative; otherwise the parsed
integer. -/
def getFreeBytes_claimed (rows : List String) (path : String) : Int :=
  match first_row rows path with
  | none => -1
  | some row =>
    if field row PVATTR_PV_FREE = "" then -1
    else
      match leadingInteger (field row PVATTR_PV_FREE).toList with
      | none => -1
      | some v => if v < 0 then -1 else v

/-- The amended `getFreeBytes`: as claimed, with the parsed integer capped at
the largest 64-bit signed value. -/
def getFreeBytes (rows : List String) (path : String) : Int :=
  match first_row rows path with
  | none => -1
  | some row =>
    if field row PVATTR_PV_FREE = "" then -1
    else
      match leadingInteger (field row PVATTR_PV_FREE).toList with
      | none => -1
      | some v => if v < 0 then -1 else min v G_MAXINT64

/-- The lines of a sequence of characters: every newline ends a line, and what
follows the last newline, if anything, is the last line.  The empty text has no
line, `"a\n"` has the one line `"a"`, and `"a\n\nb"` has three lines, the
second one empty. -/
def linesChars : List Char → List (List Char)
  | [] => []
  | c :: cs =>
    if c = '\n' then [] :: linesChars cs
    else
      match linesChars cs with
      | [] => [[c]]
      | l :: ls => (c :: l) :: ls

/-- The lines of a text, split on newline. -/
def lines (out : String) : List String := (linesChars out.toList).map String.mk

/-- The lines of a text that have at least one character. -/
def nonEmptyLines (out : String) : List String :=
  (lines out).filter (fun line => decide (line ≠ ""))

/-- The text `row` is `line` trimmed of surrounding white space: `line` is `row`
between two runs of white space characters (space, tab, carriage return,
newline), and `row` neither starts nor ends with such a character. -/
def IsTrimOf (line row : String) : Prop :=
  ∃ pre post : List Char,
    line.toList = pre ++ row.toList ++ post ∧
      (∀ c ∈ pre, c.isWhitespace = true) ∧ (∀ c ∈ post, c.isWhitespace = true) ∧
      (∀ c, row.toList.head? = some c → c.isWhitespace = false) ∧
      (∀ c, row.toList.getLast? = some c → c.isWhitespace = false)

end Ref

end GParted


open GParted GParted.LVM2_PV_Info

/-! ## Lemmas about the helpers -/

namespace GParted

theorem splitChars_ne_nil (d cs : List Char) : Utils.splitChars d cs ≠ [] := by
  induction cs with
  | nil => simp [Utils.splitChars]
  | cons c cs ih =>
    unfold Utils.splitChars
    split
    · simp
    · split <;> simp

theorem fields_length_pos (row : String) : 0 < (Ref.fields row).length := by
  unfold Ref.fields Utils.split
  rw [List.length_map]
  exact List.length_pos.mpr (splitChars_ne_nil _ _)

theorem head?_fields (row : String) : (Ref.fields row).head? = some (Ref.field row 0) := by
  have h := fields_length_pos row
  unfold Ref.field
  cases hf : Ref.fields row with
  | nil => rw [hf] at h; simp at h
  | cons a l => simp

theorem initialize_if_required_loaded (env : Env) (s : LVM2_PV_Info)
    (h : s.lvm2_pv_info_cache_initialized = true) : initialize_if_required env s = s := by
  simp [initialize_if_required, h]

theorem getD_guarded (l : List String) (k : Nat) :
    (if k < l.length then l.getD k "" else "") = l.getD k "" := by
  by_cases hk : k < l.length
  · simp [hk]
  · rw [if_neg hk, List.getD_eq_default _ _ (Nat.le_of_not_lt hk)]

theorem pv_name_test_iff (row path : String) :
    (PVATTR_PV_NAME < (Utils.split row ",").length ∧
        path = (Utils.split row ",").getD PVATTR_PV_NAME "") ↔
      (Ref.fields row).head? = some path := by
  rw [head?_fields]
  constructor
  · rintro ⟨_, h⟩
    rw [h]
    rfl
  · intro h
    exact ⟨fields_length_pos row, (Option.some.inj h).symm⟩

theorem get_pv_attr_by_path_eq (rows : List String) (path : String) (k : Nat) :
    get_pv_attr_by_path rows path k = Ref.attr_of_first_row rows path k := by
  induction rows with
  | nil => simp [get_pv_attr_by_path, Ref.attr_of_first_row, Ref.first_row]
  | cons row rest ih =>
    unfold get_pv_attr_by_path
    simp only [getD_guarded, pv_name_test_iff]
    simp only [Ref.attr_of_first_row, Ref.first_row, List.find?_cons] at ih ⊢
    by_cases hp : (Ref.fields row).head? = some path
    · simp only [hp, if_true, decide_True]
      rfl
    · simp only [hp, if_false, decide_False]
      exact ih

/-! ## Lemmas about `g_ascii_strtoll` -/

theorem digit_test_iff (c : Char) : ('0' ≤ c ∧ c ≤ '9') ↔ c.isDigit = true := by
  simp [Char.isDigit, Char.le_def, UInt32.le_def]

theorem parse_digits_eq (u : List Char) (acc : Nat) :
    parse_digits acc u =
      (acc * 10 ^ (u.takeWhile Char.isDigit).length
          + Ref.decimalValue (u.takeWhile Char.isDigit),
        u.dropWhile Char.isDigit) := by
  induction u generalizing acc with
  | nil => simp [parse_digits, Ref.decimalValue]
  | cons c cs ih =>
    unfold parse_digits
    by_cases hc : c.isDigit = true
    · rw [if_pos ((digit_test_iff c).mpr hc), ih]
      simp only [List.takeWhile_cons, List.dropWhile_cons, hc, if_true, List.length_cons,
        Ref.decimalValue]
      have h48 : ('0').toNat = 48 := rfl
      rw [h48]
      congr 1
      ring
    · rw [if_neg (fun h => hc ((digit_test_iff c).mp h))]
      simp [List.takeWhile_cons, List.dropWhile_cons, hc, Ref.decimalValue]

theorem length_dropWhile_eq_iff (p : Char → Bool) (u : List Char) :
    (u.dropWhile p).length = u.length ↔ u.takeWhile p = [] := by
  have h := congrArg List.length (List.takeWhile_append_dropWhile p u)
  rw [List.length_append] at h
  constructor
  · intro h1
    apply List.eq_nil_of_length_eq_zero
    omega
  · intro h1
    rw [h1] at h
    simpa using h

theorem length_dropWhile_le (p : Char → Bool) (u : List Char) :
    (u.dropWhile p).length ≤ u.length := by
  have h := congrArg List.length (List.takeWhile_append_dropWhile p u)
  rw [List.length_append] at h
  omega

/-- The sign step of `g_ascii_strtoll`, read through `head?` and `tail`. -/
theorem sign_step_eq (t : List Char) :
    (match t with
      | '-' :: r => (true, r)
      | '+' :: r => (false, r)
      | _ => (false, t) : Bool × List Char) =
      (decide (t.head? = some '-'),
        if t.head? = some '-' ∨ t.head? = some '+' then t.tail else t) := by
  split
  · simp
  · simp
  · rename_i h1 h2
    cases t with
    | nil => simp
    | cons c r =>
      have hm : c ≠ '-' := fun h => h1 r (by rw [h])
      have hp : c ≠ '+' := fun h => h2 r (by rw [h])
      simp [hm, hp]

theorem g_ascii_strtoll_unfold (s : List Char) :
    g_ascii_strtoll s =
      (if ((if (s.dropWhile ISSPACE).head? = some '-' ∨ (s.dropWhile ISSPACE).head? = some '+'
              then (s.dropWhile ISSPACE).tail else s.dropWhile ISSPACE).takeWhile Char.isDigit) = []
        then (0, s)
        else
          (if (s.dropWhile ISSPACE).head? = some '-' then
              max G_MININT64 (-(Ref.decimalValue
                ((if (s.dropWhile ISSPACE).head? = some '-' ∨
                      (s.dropWhile ISSPACE).head? = some '+'
                    then (s.dropWhile ISSPACE).tail
                    else s.dropWhile ISSPACE).takeWhile Char.isDigit) : Int))
            else
              min G_MAXINT64 (Ref.decimalValue
                ((if (s.dropWhile ISSPACE).head? = some '-' ∨
                      (s.dropWhile ISSPACE).head? = some '+'
                    then (s.dropWhile ISSPACE).tail
                    else s.dropWhile ISSPACE).takeWhile Char.isDigit) : Int),
            (if (s.dropWhile ISSPACE).head? = some '-' ∨ (s.dropWhile ISSPACE).head? = some '+'
              then (s.dropWhile ISSPACE).tail else s.dropWhile ISSPACE).dropWhile Char.isDigit)) := by
  unfold g_ascii_strtoll
  simp only [sign_step_eq, parse_digits_eq, length_dropWhile_eq_iff, zero_mul, zero_add]
  generalize (if (s.dropWhile ISSPACE).head? = some '-' ∨ (s.dropWhile ISSPACE).head? = some '+'
      then (s.dropWhile ISSPACE).tail else s.dropWhile ISSPACE) = u
  by_cases hd : u.takeWhile Char.isDigit = []
  · simp [hd]
  · simp only [hd, if_false]
    generalize Ref.decimalValue (u.takeWhile Char.isDigit) = n
    by_cases hneg : (s.dropWhile ISSPACE).head? = some '-'
    · simp only [hneg, decide_True, true_and, if_true]
      unfold G_MININT64
      by_cases h1 : (n : Int) > 9223372036854775808
      · simp only [neg_neg, h1, if_true, Bool.true_eq_false, false_and, if_false]
        congr 1
        omega
      · simp only [neg_neg, h1, if_false, Bool.true_eq_false, false_and]
        congr 1
        omega
    · simp only [hneg, decide_False, Bool.false_eq_true, false_and, if_false, true_and]
      unfold G_MAXINT64
      by_cases h1 : (n : Int) > 9223372036854775807
      · simp only [h1, if_true]
        congr 1
        omega
      · simp only [h1, if_false]
        congr 1
        omega

theorem length_sign_tail_le (s : List Char) :
    (if (s.dropWhile ISSPACE).head? = some '-' ∨ (s.dropWhile ISSPACE).head? = some '+'
      then (s.dropWhile ISSPACE).tail else s.dropWhile ISSPACE).length ≤ s.length := by
  have h1 := length_dropWhile_le ISSPACE s
  split
  · rw [List.length_tail]
    omega
  · exact h1

/-- The value test of `get_free_bytes` on a field, against the reference parse. -/
theorem free_bytes_test_eq (fb : List Char) :
    (if (g_ascii_strtoll fb).1 < 0 ∨ ((g_ascii_strtoll fb).1 = 0 ∧ (g_ascii_strtoll fb).2 = fb)
      then (-1 : Int) else (g_ascii_strtoll fb).1) =
      (match Ref.leadingInteger fb with
        | none => -1
        | some v => if v < 0 then -1 else min v G_MAXINT64) := by
  rw [g_ascii_strtoll_unfold]
  unfold Ref.leadingInteger
  have hlen := length_sign_tail_le fb
  simp only []
  generalize (if (fb.dropWhile ISSPACE).head? = some '-' ∨ (fb.dropWhile ISSPACE).head? = some '+'
      then (fb.dropWhile ISSPACE).tail else fb.dropWhile ISSPACE) = u at hlen ⊢
  by_cases hd : u.takeWhile Char.isDigit = []
  · simp [hd]
  · have hne : u.dropWhile Char.isDigit ≠ fb := by
      intro h
      have h1 := congrArg List.length h
      have h2 : (u.dropWhile Char.isDigit).length ≠ u.length := fun h3 =>
        hd ((length_dropWhile_eq_iff _ _).mp h3)
      have h3 := length_dropWhile_le Char.isDigit u
      omega
    simp only [hd, if_false, hne, and_false, or_false]
    generalize Ref.decimalValue (u.takeWhile Char.isDigit) = n
    unfold G_MININT64 G_MAXINT64
    by_cases hneg : (fb.dropWhile ISSPACE).head? = some '-'
    · simp only [hneg, if_true]
      by_cases hn : n = 0
      · subst hn
        simp
      · have h1 : max (-9223372036854775808 : Int) (-(n : Int)) < 0 := by omega
        have h2 : (-(n : Int)) < 0 := by omega
        simp only [h1, h2, if_true]
    · simp only [hneg, if_false]
      have h1 : ¬ (min (9223372036854775807 : Int) (n : Int) < 0) := by omega
      have h2 : ¬ ((n : Int) < 0) := by omega
      simp only [h1, h2, if_false]
      exact min_comm _ _

theorem get_free_bytes_fst (env : Env) (s : LVM2_PV_Info) (path : String) :
    (get_free_bytes env s path).1 =
      if get_pv_attr_by_path (initialize_if_required env s).lvm2_pv_cache path PVATTR_PV_FREE ≠ ""
      then
        (if (g_ascii_strtoll (get_pv_attr_by_path (initialize_if_required env s).lvm2_pv_cache
                path PVATTR_PV_FREE).toList).1 < 0 ∨
            ((g_ascii_strtoll (get_pv_attr_by_path (initialize_if_required env s).lvm2_pv_cache
                path PVATTR_PV_FREE).toList).1 = 0 ∧
              (g_ascii_strtoll (get_pv_attr_by_path (initialize_if_required env s).lvm2_pv_cache
                path PVATTR_PV_FREE).toList).2 =
                (get_pv_attr_by_path (initialize_if_required env s).lvm2_pv_cache
                  path PVATTR_PV_FREE).toList)
          then -1
          else (g_ascii_strtoll (get_pv_attr_by_path (initialize_if_required env s).lvm2_pv_cache
                path PVATTR_PV_FREE).toList).1)
      else -1 := by
  unfold get_free_bytes
  simp only []
  split_ifs <;> rfl

theorem get_free_bytes_snd (env : Env) (s : LVM2_PV_Info) (path : String) :
    (get_free_bytes env s path).2 = initialize_if_required env s := by
  unfold get_free_bytes
  simp only []
  split_ifs <;> rfl

/-- The result of `get_free_bytes` is the reference value on the rows the
accessor answers from. -/
theorem get_free_bytes_eq_ref (env : Env) (s : LVM2_PV_Info) (path : String) :
    (get_free_bytes env s path).1 =
      Ref.getFreeBytes (initialize_if_required env s).lvm2_pv_cache path := by
  rw [get_free_bytes_fst, get_pv_attr_by_path_eq, free_bytes_test_eq]
  unfold Ref.getFreeBytes Ref.attr_of_first_row
  cases Ref.first_row (initialize_if_required env s).lvm2_pv_cache path with
  | none => simp
  | some row =>
    simp only []
    by_cases hf : Ref.field row PVATTR_PV_FREE = ""
    · simp [hf]
    · simp only [hf, if_false, ne_eq, not_false_eq_true, if_true]

theorem getFreeBytes_ref_of_field (rows : List String) (path : String) :
    Ref.getFreeBytes rows path =
      if Ref.attr_of_first_row rows path PVATTR_PV_FREE = "" then -1
      else
        match Ref.leadingInteger (Ref.attr_of_first_row rows path PVATTR_PV_FREE).toList with
        | none => -1
        | some v => if v < 0 then -1 else min v G_MAXINT64 := by
  unfold Ref.getFreeBytes Ref.attr_of_first_row
  cases Ref.first_row rows path with
  | none => simp
  | some row => simp only []

theorem not_ISSPACE_of_isDigit (c : Char) (h : c.isDigit = true) : ISSPACE c = false := by
  unfold ISSPACE
  simp only [Bool.or_eq_false_iff, beq_eq_false_iff_ne]
  refine ⟨⟨⟨⟨⟨?_, ?_⟩, ?_⟩, ?_⟩, ?_⟩, ?_⟩ <;>
    (rintro rfl
     revert h
     decide)

theorem takeWhile_digits_append (ds rest : List Char) (hds : ∀ c ∈ ds, c.isDigit = true)
    (hrest : ∀ c, rest.head? = some c → c.isDigit = false) :
    (ds ++ rest).takeWhile Char.isDigit = ds := by
  induction ds with
  | nil =>
    cases rest with
    | nil => rfl
    | cons c r => simp [List.takeWhile_cons, hrest c rfl]
  | cons d ds ih =>
    have hd : d.isDigit = true := hds d (List.mem_cons_self _ _)
    simp only [List.cons_append, List.takeWhile_cons, hd, if_true]
    rw [ih (fun c hc => hds c (List.mem_cons_of_mem _ hc))]

/-- A text that starts with digits has these digits as its leading integer. -/
theorem leadingInteger_digits_append (ds rest : List Char) (hne : ds ≠ [])
    (hds : ∀ c ∈ ds, c.isDigit = true)
    (hrest : ∀ c, rest.head? = some c → c.isDigit = false) :
    Ref.leadingInteger (ds ++ rest) = some (Ref.decimalValue ds : Int) := by
  cases ds with
  | nil => exact absurd rfl hne
  | cons d ds =>
    have hd : d.isDigit = true := hds d (List.mem_cons_self _ _)
    have hsp : ISSPACE d = false := not_ISSPACE_of_isDigit d hd
    have hm : d ≠ '-' := by
      rintro rfl
      revert hd
      decide
    have hp : d ≠ '+' := by
      rintro rfl
      revert hd
      decide
    have htw := takeWhile_digits_append (d :: ds) rest hds hrest
    unfold Ref.leadingInteger
    simp only [List.cons_append, List.dropWhile_cons, hsp, Bool.false_eq_true, if_false,
      List.head?_cons, Option.some.injEq, hm, hp, or_self] at htw ⊢
    rw [htw]
    simp

theorem getFreeBytes_eq_min_claimed (rows : List String) (path : String) :
    Ref.getFreeBytes rows path = min (Ref.getFreeBytes_claimed rows path) G_MAXINT64 := by
  unfold Ref.getFreeBytes Ref.getFreeBytes_claimed
  have hmax : min (-1 : Int) G_MAXINT64 = -1 := by decide
  cases Ref.first_row rows path with
  | none => exact hmax.symm
  | some row =>
    simp only []
    split_ifs with h1
    · exact hmax.symm
    · cases Ref.leadingInteger (Ref.field row PVATTR_PV_FREE).toList with
      | none => exact hmax.symm
      | some v =>
        simp only []
        split_ifs with h2
        · exact hmax.symm
        · rfl

/-! ## Lemmas about the row scans -/

theorem get_pv_attr_by_row_eq (rows : List String) (i k : Nat) (hi : i < rows.length) :
    get_pv_attr_by_row rows i k = Ref.field (rows.getD i "") k := by
  unfold get_pv_attr_by_row
  rw [if_neg (Nat.not_le_of_lt hi)]
  simp only [getD_guarded]
  rfl

/-- The scanning loop of `has_active_lvs` and `is_vg_exported`: it answers `true`
exactly when some row of the volume group carries the flag. -/
theorem scan_rows_iff (rows : List String) (vgname : String) (k m n : Nat) :
    (List.range rows.length).any (fun i =>
        decide (vgname = get_pv_attr_by_row rows i PVATTR_VG_NAME) &&
          (decide ((get_pv_attr_by_row rows i k).length ≥ m) &&
            decide (ustring_at (get_pv_attr_by_row rows i k) n ≠ '-'))) = true ↔
      ∃ row ∈ rows, Ref.field row PVATTR_VG_NAME = vgname ∧
        (Ref.field row k).length ≥ m ∧ ustring_at (Ref.field row k) n ≠ '-' := by
  rw [List.any_eq_true]
  constructor
  · rintro ⟨i, hi, h⟩
    have hlt : i < rows.length := List.mem_range.mp hi
    rw [get_pv_attr_by_row_eq rows i _ hlt, get_pv_attr_by_row_eq rows i _ hlt] at h
    simp only [Bool.and_eq_true, decide_eq_true_eq] at h
    refine ⟨rows.getD i "", ?_, h.1.symm, h.2.1, h.2.2⟩
    rw [List.getD_eq_getElem _ _ hlt]
    exact List.getElem_mem hlt
  · rintro ⟨row, hrow, h1, h2, h3⟩
    obtain ⟨i, hlt, hget⟩ := List.getElem_of_mem hrow
    refine ⟨i, List.mem_range.mpr hlt, ?_⟩
    rw [get_pv_attr_by_row_eq rows i _ hlt, get_pv_attr_by_row_eq rows i _ hlt,
      List.getD_eq_getElem _ _ hlt, hget]
    simp only [Bool.and_eq_true, decide_eq_true_eq]
    exact ⟨h1.symm, h2, h3⟩

theorem has_active_lvs_fst (env : Env) (s : LVM2_PV_Info) (path : String) :
    (has_active_lvs env s path).1 =
      if get_pv_attr_by_path (initialize_if_required env s).lvm2_pv_cache path PVATTR_VG_NAME = ""
      then false
      else
        (List.range (initialize_if_required env s).lvm2_pv_cache.length).any (fun i =>
          decide (get_pv_attr_by_path (initialize_if_required env s).lvm2_pv_cache path
              PVATTR_VG_NAME =
            get_pv_attr_by_row (initialize_if_required env s).lvm2_pv_cache i PVATTR_VG_NAME) &&
          (decide ((get_pv_attr_by_row (initialize_if_required env s).lvm2_pv_cache i
              PVATTR_LV_BITS).length ≥ 5) &&
            decide (ustring_at (get_pv_attr_by_row (initialize_if_required env s).lvm2_pv_cache i
              PVATTR_LV_BITS) 4 ≠ '-'))) := by
  unfold has_active_lvs
  simp only []
  split_ifs <;> rfl

theorem has_active_lvs_snd (env : Env) (s : LVM2_PV_Info) (path : String) :
    (has_active_lvs env s path).2 = initialize_if_required env s := by
  unfold has_active_lvs
  simp only []
  split_ifs <;> rfl

/-- The answer of `has_active_lvs` on the rows the accessor answers from. -/
theorem has_active_lvs_iff (env : Env) (s : LVM2_PV_Info) (path : String) :
    (has_active_lvs env s path).1 = true ↔
      (Ref.attr_of_first_row (initialize_if_required env s).lvm2_pv_cache path PVATTR_VG_NAME ≠ "" ∧
        ∃ row ∈ (initialize_if_required env s).lvm2_pv_cache,
          Ref.field row PVATTR_VG_NAME =
              Ref.attr_of_first_row (initialize_if_required env s).lvm2_pv_cache path
                PVATTR_VG_NAME ∧
            (Ref.field row PVATTR_LV_BITS).length ≥ 5 ∧
            ustring_at (Ref.field row PVATTR_LV_BITS) 4 ≠ '-') := by
  rw [has_active_lvs_fst, get_pv_attr_by_path_eq]
  by_cases hvg : Ref.attr_of_first_row (initialize_if_required env s).lvm2_pv_cache path
      PVATTR_VG_NAME = ""
  · simp [hvg]
  · rw [if_neg hvg, scan_rows_iff]
    simp [hvg]

/-- The answer of `is_vg_exported` on the rows the accessor answers from. -/
theorem is_vg_exported_iff (env : Env) (s : LVM2_PV_Info) (vgname : String) :
    (is_vg_exported env s vgname).1 = true ↔
      ∃ row ∈ (initialize_if_required env s).lvm2_pv_cache,
        Ref.field row PVATTR_VG_NAME = vgname ∧
          (Ref.field row PVATTR_VG_BITS).length ≥ 3 ∧
          ustring_at (Ref.field row PVATTR_VG_BITS) 2 ≠ '-' := by
  unfold is_vg_exported
  simp only []
  exact scan_rows_iff _ _ _ _ _

/-! ## Lemmas about the accessors and the reachable states -/

theorem first_row_append (before after : List String) (row path : String)
    (hbefore : ∀ r ∈ before, Ref.field r PVATTR_PV_NAME ≠ path)
    (hrow : Ref.field row PVATTR_PV_NAME = path) :
    Ref.first_row (before ++ row :: after) path = some row := by
  unfold Ref.first_row
  induction before with
  | nil =>
    have h : (Ref.fields row).head? = some path := by rw [head?_fields, ← hrow]; rfl
    simp [List.find?_cons, h]
  | cons b bs ih =>
    have hb : ¬ ((Ref.fields b).head? = some path) := by
      rw [head?_fields]
      intro h
      exact hbefore b (List.mem_cons_self _ _) (Option.some.inj h)
    simp only [List.cons_append, List.find?_cons, hb, decide_False]
    exact ih (fun r hr => hbefore r (List.mem_cons_of_mem _ hr))

theorem first_row_none (rows : List String) (path : String)
    (h : ∀ r ∈ rows, Ref.field r PVATTR_PV_NAME ≠ path) : Ref.first_row rows path = none := by
  unfold Ref.first_row
  rw [List.find?_eq_none]
  intro r hr
  simp only [decide_eq_true_eq, head?_fields]
  intro h1
  exact h r hr (Option.some.inj h1)

theorem attr_of_first_row_absent (rows : List String) (path : String) (k : Nat)
    (h : ∀ r ∈ rows, Ref.field r PVATTR_PV_NAME ≠ path) :
    Ref.attr_of_first_row rows path k = "" := by
  unfold Ref.attr_of_first_row
  rw [first_row_none rows path h]

theorem initialize_if_required_initialized (env : Env) (s : LVM2_PV_Info) :
    (initialize_if_required env s).lvm2_pv_info_cache_initialized = true := by
  unfold initialize_if_required
  split_ifs with h
  · rfl
  · simpa using h

theorem initialize_if_required_idem (env env2 : Env) (s : LVM2_PV_Info) :
    initialize_if_required env2 (initialize_if_required env s) = initialize_if_required env s :=
  initialize_if_required_loaded env2 _ (initialize_if_required_initialized env s)

theorem get_error_messages_fst (env : Env) (s : LVM2_PV_Info) (path : String) :
    (get_error_messages env s path).1 =
      if (initialize_if_required env s).error_messages ≠ [] then
        (initialize_if_required env s).error_messages
      else if (get_pv_attr_by_path (initialize_if_required env s).lvm2_pv_cache path
            PVATTR_VG_BITS).length ≥ 4 ∧
          ustring_at (get_pv_attr_by_path (initialize_if_required env s).lvm2_pv_cache path
            PVATTR_VG_BITS) 3 ≠ '-' then [partial_vg_advice]
      else [] := by
  unfold get_error_messages
  simp only []
  split_ifs <;> rfl

theorem get_error_messages_snd (env : Env) (s : LVM2_PV_Info) (path : String) :
    (get_error_messages env s path).2 = initialize_if_required env s := by
  unfold get_error_messages
  simp only []
  split_ifs <;> rfl

/-- Every operation other than the support probe and the constructors leaves the
state that `initialize_if_required` produces. -/
theorem run_initialized (env : Env) (s : LVM2_PV_Info) (op : Op)
    (h : (op.run env s).lvm2_pv_info_cache_initialized = false) :
    s.lvm2_pv_info_cache_initialized = false ∧
      (op.run env s).lvm2_pv_cache = s.lvm2_pv_cache ∧
      (op.run env s).error_messages = s.error_messages ∧
      (op.run env s).commands_run = s.commands_run := by
  cases op with
  | construct_default => exact ⟨h, rfl, rfl, rfl⟩
  | construct do_refresh =>
    cases do_refresh with
    | false => exact ⟨h, rfl, rfl, rfl⟩
    | true => simp [Op.run, construct] at h
  | is_lvm2_pv_supported =>
    simp only [Op.run, is_lvm2_pv_supported] at h ⊢
    by_cases hi : s.lvm2_pv_info_cache_initialized = false
    · rw [if_pos hi]
      exact ⟨hi, rfl, rfl, rfl⟩
    · simp only [hi, if_false] at h
      exact absurd h hi
  | get_vg_name path =>
    simp only [Op.run, get_vg_name, initialize_if_required_initialized] at h
    exact absurd h (by decide)
  | get_free_bytes path =>
    simp only [Op.run, get_free_bytes_snd, initialize_if_required_initialized] at h
    exact absurd h (by decide)
  | has_active_lvs path =>
    simp only [Op.run, has_active_lvs_snd, initialize_if_required_initialized] at h
    exact absurd h (by decide)
  | is_vg_exported vgname =>
    simp only [Op.run, is_vg_exported, initialize_if_required_initialized] at h
    exact absurd h (by decide)
  | get_error_messages path =>
    simp only [Op.run, get_error_messages_snd, initialize_if_required_initialized] at h
    exact absurd h (by decide)

/-- Before the first load nothing is cached, no error is stored and no command
was run. -/
theorem reachable_uninitialized (s : LVM2_PV_Info) (hr : Reachable s)
    (h : s.lvm2_pv_info_cache_initialized = false) :
    s.lvm2_pv_cache = [] ∧ s.error_messages = [] ∧ s.commands_run = [] := by
  induction hr with
  | initial => exact ⟨rfl, rfl, rfl⟩
  | step env op s _ ih =>
    obtain ⟨h0, h1, h2, h3⟩ := run_initialized env s op h
    obtain ⟨i1, i2, i3⟩ := ih h0
    exact ⟨h1.trans i1, h2.trans i2, h3.trans i3⟩

/-! ## The claims -/

/-- C1 (amended): on a loaded cache `get_free_bytes` equals the reference
definition capped at the largest 64-bit value.  The result is -1 when no row has
`pv_path` equal to the path, or the `pv_free` field of the first such row is empty
or absent, or no decimal integer (optional white space, optional sign, at least
one digit) starts it, or that integer is negative; otherwise it is the integer,
capped at `2^63 - 1`.  A first matching field `"2147483648"` gives 2147483648,
`""` gives -1 and `"abc"` gives -1. -/
theorem get_free_bytes_reference :
    (∀ (env : Env) (s : LVM2_PV_Info) (path : String),
        s.lvm2_pv_info_cache_initialized = true →
        (get_free_bytes env s path).1 =
          min (Ref.getFreeBytes_claimed s.lvm2_pv_cache path) G_MAXINT64) ∧
    (∀ (env : Env) (s : LVM2_PV_Info) (path row : String),
        s.lvm2_pv_info_cache_initialized = true →
        Ref.first_row s.lvm2_pv_cache path = some row →
        (Ref.field row PVATTR_PV_FREE = "2147483648" →
            (get_free_bytes env s path).1 = 2147483648) ∧
        (Ref.field row PVATTR_PV_FREE = "" → (get_free_bytes env s path).1 = -1) ∧
        (Ref.field row PVATTR_PV_FREE = "abc" → (get_free_bytes env s path).1 = -1)) := by
  have key : ∀ (env : Env) (s : LVM2_PV_Info) (path : String),
      s.lvm2_pv_info_cache_initialized = true →
      (get_free_bytes env s path).1 = Ref.getFreeBytes s.lvm2_pv_cache path := by
    intro env s path h
    rw [get_free_bytes_eq_ref, initialize_if_required_loaded env s h]
  refine ⟨?_, ?_⟩
  · intro env s path h
    rw [key env s path h, getFreeBytes_eq_min_claimed]
  · intro env s path row h hrow
    refine ⟨?_, ?_, ?_⟩
    · intro hf
      rw [key env s path h]
      unfold Ref.getFreeBytes
      rw [hrow]
      simp only [hf]
      decide
    · intro hf
      rw [key env s path h]
      unfold Ref.getFreeBytes
      rw [hrow]
      simp only [hf]
      decide
    · intro hf
      rw [key env s path h]
      unfold Ref.getFreeBytes
      rw [hrow]
      simp only [hf]
      decide

/-- Witness of C1 on the example cache of the source, path `/dev/sda12`. -/
theorem get_free_bytes_reference_witness :
    (loaded example_cache).lvm2_pv_info_cache_initialized = true ∧
      (get_free_bytes env_no_lvm (loaded example_cache) "/dev/sda12").1 =
        min (Ref.getFreeBytes_claimed (loaded example_cache).lvm2_pv_cache "/dev/sda12")
          G_MAXINT64 :=
  ⟨rfl, get_free_bytes_reference.1 env_no_lvm (loaded example_cache) "/dev/sda12" rfl⟩

/-- Counterexample to C1 as stated: the `pv_free` field `"9223372036854775808"`
(`2^63`) parses to `2^63`, yet `get_free_bytes` returns `2^63 - 1`. -/
theorem get_free_bytes_saturates :
    (get_free_bytes env_no_lvm (loaded ["/dev/sda1,9223372036854775808,,r-----,,"])
        "/dev/sda1").1 = 9223372036854775807 ∧
      Ref.getFreeBytes_claimed ["/dev/sda1,9223372036854775808,,r-----,,"] "/dev/sda1" =
        9223372036854775808 := by
  decide

/-- C2 (amended): on a loaded cache, `get_free_bytes` looks at the `pv_free`
field of the first row whose `pv_path` is the path, and at no other row.  When
that field has no leading decimal integer (after optional white space and sign no
digit follows) the result is -1.  A field that starts with digits followed by
other characters is not a failure: the characters after the digits are ignored
and the result is the value of the leading digits, capped at `2^63 - 1`.  The
rows after the first matching row, whatever their `pv_free` field, do not change
the result. -/
theorem get_free_bytes_leading_integer :
    (∀ (env : Env) (s : LVM2_PV_Info) (path : String),
        s.lvm2_pv_info_cache_initialized = true →
        Ref.leadingInteger
            (Ref.attr_of_first_row s.lvm2_pv_cache path PVATTR_PV_FREE).toList = none →
        (get_free_bytes env s path).1 = -1) ∧
    (∀ (env : Env) (s : LVM2_PV_Info) (path : String) (ds rest : List Char),
        s.lvm2_pv_info_cache_initialized = true →
        (Ref.attr_of_first_row s.lvm2_pv_cache path PVATTR_PV_FREE).toList = ds ++ rest →
        ds ≠ [] →
        (∀ c ∈ ds, c.isDigit = true) →
        (∀ c, rest.head? = some c → c.isDigit = false) →
        (get_free_bytes env s path).1 = min (Ref.decimalValue ds : Int) G_MAXINT64) ∧
    (∀ (env : Env) (s : LVM2_PV_Info) (path row : String) (before after : List String),
        s.lvm2_pv_info_cache_initialized = true →
        s.lvm2_pv_cache = before ++ row :: after →
        (∀ r ∈ before, Ref.field r PVATTR_PV_NAME ≠ path) →
        Ref.field row PVATTR_PV_NAME = path →
        (get_free_bytes env s path).1 = (get_free_bytes env (loaded [row]) path).1) := by
  refine ⟨?_, ?_, ?_⟩
  · intro env s path h hnone
    rw [get_free_bytes_eq_ref, initialize_if_required_loaded env s h, getFreeBytes_ref_of_field,
      hnone]
    simp
  · intro env s path ds rest h hfield hne hds hrest
    have hf : Ref.attr_of_first_row s.lvm2_pv_cache path PVATTR_PV_FREE ≠ "" := by
      intro h0
      rw [h0] at hfield
      cases ds with
      | nil => exact hne rfl
      | cons d ds => simp at hfield
    rw [get_free_bytes_eq_ref, initialize_if_required_loaded env s h, getFreeBytes_ref_of_field,
      if_neg hf, hfield, leadingInteger_digits_append ds rest hne hds hrest]
    have hnn : ¬ ((Ref.decimalValue ds : Int) < 0) := by omega
    simp only [hnn, if_false]
  · intro env s path row before after h hrows hbefore hrow
    have h1 : Ref.first_row [row] path = some row :=
      first_row_append [] [] row path (fun r hr => absurd hr (List.not_mem_nil r)) hrow
    rw [get_free_bytes_eq_ref, initialize_if_required_loaded env s h, get_free_bytes_eq_ref,
      initialize_if_required_loaded env (loaded [row]) rfl, hrows]
    show Ref.getFreeBytes (before ++ row :: after) path = Ref.getFreeBytes [row] path
    unfold Ref.getFreeBytes
    rw [first_row_append before after row path hbefore hrow, h1]

/-- Witness of C2: the field `"12abc"` is the digits `12` followed by `abc`, and
the result is 12. -/
theorem get_free_bytes_leading_integer_witness :
    (get_free_bytes env_no_lvm (loaded ["/dev/sdb1,12abc,GParted-VG1,wz--n-,,"])
        "/dev/sdb1").1 = min (Ref.decimalValue ['1', '2'] : Int) G_MAXINT64 :=
  get_free_bytes_leading_integer.2.1 env_no_lvm
    (loaded ["/dev/sdb1,12abc,GParted-VG1,wz--n-,,"]) "/dev/sdb1" ['1', '2'] ['a', 'b', 'c']
    rfl (by decide) (by decide) (by decide) (by decide)

/-- Counterexample to C2 as stated, twice.  The `pv_free` field `"12abc"` is not
entirely a decimal integer, yet `get_free_bytes` returns 12, not -1.  And a row
with the field `"abc"` that is not the first row of its path does not decide the
result: with the rows `/dev/sda1,5,...` and `/dev/sda1,abc,...` the result for
`/dev/sda1` is 5, not -1. -/
theorem get_free_bytes_trailing_text :
    ((get_free_bytes env_no_lvm (loaded ["/dev/sda1,12abc,,r-----,,"]) "/dev/sda1").1 = 12 ∧
      (get_free_bytes env_no_lvm (loaded ["/dev/sda1,12abc,,r-----,,"]) "/dev/sda1").1 ≠ -1) ∧
    ((get_free_bytes env_no_lvm
        (loaded ["/dev/sda1,5,GParted-VG1,wz--n-,,", "/dev/sda1,abc,GParted-VG1,wz--n-,,"])
        "/dev/sda1").1 = 5 ∧
      (get_free_bytes env_no_lvm
        (loaded ["/dev/sda1,5,GParted-VG1,wz--n-,,", "/dev/sda1,abc,GParted-VG1,wz--n-,,"])
        "/dev/sda1").1 ≠ -1) := by
  decide

/-- C3: on a loaded cache `has_active_lvs` is true exactly when the volume group
name resolved for the path (the `vg_name` of the first row whose `pv_path` is the
path) is not empty and some row of the cache has that `vg_name` and an `lv_attr`
of length at least 5 whose character at index 4 is not `-`.  With only `"-wi---"`
rows for the volume group the answer is false; with a row `"-wi-a-"` for that
volume group it is true (in general, and for `GParted-VG4` on the example cache of
the source). -/
theorem has_active_lvs_reference :
    (∀ (env : Env) (s : LVM2_PV_Info) (path : String),
        s.lvm2_pv_info_cache_initialized = true →
        ((has_active_lvs env s path).1 = true ↔
          (Ref.attr_of_first_row s.lvm2_pv_cache path PVATTR_VG_NAME ≠ "" ∧
            ∃ row ∈ s.lvm2_pv_cache,
              Ref.field row PVATTR_VG_NAME =
                  Ref.attr_of_first_row s.lvm2_pv_cache path PVATTR_VG_NAME ∧
                (Ref.field row PVATTR_LV_BITS).length ≥ 5 ∧
                ustring_at (Ref.field row PVATTR_LV_BITS) 4 ≠ '-'))) ∧
    (∀ (env : Env) (s : LVM2_PV_Info) (path : String),
        s.lvm2_pv_info_cache_initialized = true →
        (∀ row ∈ s.lvm2_pv_cache,
          Ref.field row PVATTR_VG_NAME =
              Ref.attr_of_first_row s.lvm2_pv_cache path PVATTR_VG_NAME →
            Ref.field row PVATTR_LV_BITS = "-wi---") →
        (has_active_lvs env s path).1 = false) ∧
    (∀ (env : Env) (s : LVM2_PV_Info) (path : String),
        s.lvm2_pv_info_cache_initialized = true →
        Ref.attr_of_first_row s.lvm2_pv_cache path PVATTR_VG_NAME ≠ "" →
        (∃ row ∈ s.lvm2_pv_cache,
          Ref.field row PVATTR_VG_NAME =
              Ref.attr_of_first_row s.lvm2_pv_cache path PVATTR_VG_NAME ∧
            Ref.field row PVATTR_LV_BITS = "-wi-a-") →
        (has_active_lvs env s path).1 = true) ∧
    (∀ env : Env, (has_active_lvs env (loaded example_cache) "/dev/sda14").1 = false) ∧
    (∀ env : Env,
      (has_active_lvs env
        (loaded (example_cache ++ ["/dev/sda15,1828716544,GParted-VG4,wzx-n-,lvol1,-wi-a-"]))
        "/dev/sda14").1 = true) := by
  have key : ∀ (env : Env) (s : LVM2_PV_Info) (path : String),
      s.lvm2_pv_info_cache_initialized = true →
      ((has_active_lvs env s path).1 = true ↔
        (Ref.attr_of_first_row s.lvm2_pv_cache path PVATTR_VG_NAME ≠ "" ∧
          ∃ row ∈ s.lvm2_pv_cache,
            Ref.field row PVATTR_VG_NAME =
                Ref.attr_of_first_row s.lvm2_pv_cache path PVATTR_VG_NAME ∧
              (Ref.field row PVATTR_LV_BITS).length ≥ 5 ∧
              ustring_at (Ref.field row PVATTR_LV_BITS) 4 ≠ '-')) := by
    intro env s path h
    have hiff := has_active_lvs_iff env s path
    rw [initialize_if_required_loaded env s h] at hiff
    exact hiff
  refine ⟨key, ?_, ?_, ?_, ?_⟩
  · intro env s path h hall
    rw [← Bool.not_eq_true, key env s path h]
    rintro ⟨_, row, hrow, hvg, _, hbit⟩
    rw [hall row hrow hvg] at hbit
    exact hbit (by decide)
  · rintro env s path h hvg ⟨row, hrow, hrvg, hbits⟩
    rw [key env s path h]
    refine ⟨hvg, row, hrow, hrvg, ?_, ?_⟩
    · rw [hbits]
      decide
    · rw [hbits]
      decide
  · intro env
    rw [has_active_lvs_fst, initialize_if_required_loaded env _ rfl]
    decide
  · intro env
    rw [has_active_lvs_fst, initialize_if_required_loaded env _ rfl]
    decide

/-- Witness of C3 on the example cache of the source: `/dev/sda13` belongs to
`GParted_VG3`, which has active logical volumes. -/
theorem has_active_lvs_reference_witness :
    (loaded example_cache).lvm2_pv_info_cache_initialized = true ∧
      (has_active_lvs env_no_lvm (loaded example_cache) "/dev/sda13").1 = true :=
  ⟨rfl, (has_active_lvs_reference.1 env_no_lvm (loaded example_cache) "/dev/sda13" rfl).mpr
    (by decide)⟩

/-- C4: on a loaded cache `is_vg_exported` is true exactly when some row has the
given `vg_name` and a `vg_attr` of length at least 3 whose character at index 2 is
not `-`; it is false when no row matches.  `GParted-VG1`, whose rows all carry
`"wz--n-"`, gives false and `GParted-VG4`, with rows carrying `"wzx-n-"`, gives
true. -/
theorem is_vg_exported_reference :
    (∀ (env : Env) (s : LVM2_PV_Info) (vgname : String),
        s.lvm2_pv_info_cache_initialized = true →
        ((is_vg_exported env s vgname).1 = true ↔
          ∃ row ∈ s.lvm2_pv_cache,
            Ref.field row PVATTR_VG_NAME = vgname ∧
              (Ref.field row PVATTR_VG_BITS).length ≥ 3 ∧
              ustring_at (Ref.field row PVATTR_VG_BITS) 2 ≠ '-')) ∧
    (∀ (env : Env) (s : LVM2_PV_Info) (vgname : String),
        s.lvm2_pv_info_cache_initialized = true →
        (∀ row ∈ s.lvm2_pv_cache, Ref.field row PVATTR_VG_NAME ≠ vgname) →
        (is_vg_exported env s vgname).1 = false) ∧
    (∀ (env : Env) (s : LVM2_PV_Info) (vgname : String),
        s.lvm2_pv_info_cache_initialized = true →
        (∀ row ∈ s.lvm2_pv_cache, Ref.field row PVATTR_VG_NAME = vgname →
          Ref.field row PVATTR_VG_BITS = "wz--n-") →
        (is_vg_exported env s vgname).1 = false) ∧
    (∀ (env : Env) (s : LVM2_PV_Info) (vgname : String),
        s.lvm2_pv_info_cache_initialized = true →
        (∃ row ∈ s.lvm2_pv_cache, Ref.field row PVATTR_VG_NAME = vgname ∧
          Ref.field row PVATTR_VG_BITS = "wzx-n-") →
        (is_vg_exported env s vgname).1 = true) ∧
    (∀ env : Env, (is_vg_exported env (loaded example_cache) "GParted-VG1").1 = false) ∧
    (∀ env : Env, (is_vg_exported env (loaded example_cache) "GParted-VG4").1 = true) := by
  have key : ∀ (env : Env) (s : LVM2_PV_Info) (vgname : String),
      s.lvm2_pv_info_cache_initialized = true →
      ((is_vg_exported env s vgname).1 = true ↔
        ∃ row ∈ s.lvm2_pv_cache,
          Ref.field row PVATTR_VG_NAME = vgname ∧
            (Ref.field row PVATTR_VG_BITS).length ≥ 3 ∧
            ustring_at (Ref.field row PVATTR_VG_BITS) 2 ≠ '-') := by
    intro env s vgname h
    have hiff := is_vg_exported_iff env s vgname
    rw [initialize_if_required_loaded env s h] at hiff
    exact hiff
  refine ⟨key, ?_, ?_, ?_, ?_, ?_⟩
  · intro env s vgname h hno
    rw [← Bool.not_eq_true, key env s vgname h]
    rintro ⟨row, hrow, hvg, _⟩
    exact hno row hrow hvg
  · intro env s vgname h hall
    rw [← Bool.not_eq_true, key env s vgname h]
    rintro ⟨row, hrow, hvg, _, hbit⟩
    rw [hall row hrow hvg] at hbit
    exact hbit (by decide)
  · rintro env s vgname h ⟨row, hrow, hvg, hbits⟩
    rw [key env s vgname h]
    refine ⟨row, hrow, hvg, ?_, ?_⟩
    · rw [hbits]
      decide
    · rw [hbits]
      decide
  · intro env
    unfold is_vg_exported
    rw [initialize_if_required_loaded env _ rfl]
    decide
  · intro env
    unfold is_vg_exported
    rw [initialize_if_required_loaded env _ rfl]
    decide

/-- Witness of C4 on the example cache of the source: `GParted-VG4` is
exported. -/
theorem is_vg_exported_reference_witness :
    (loaded example_cache).lvm2_pv_info_cache_initialized = true ∧
      (is_vg_exported env_no_lvm (loaded example_cache) "GParted-VG4").1 = true :=
  ⟨rfl, (is_vg_exported_reference.1 env_no_lvm (loaded example_cache) "GParted-VG4" rfl).mpr
    (by decide)⟩

/-- C5: on a loaded cache `get_vg_name` returns the third comma-separated field
of the first row whose first field equals the path, and the empty string when no
row matches or that first matching row has fewer than three fields; the rows
after the first matching row never influence the result. -/
theorem get_vg_name_first_row :
    (∀ (env : Env) (s : LVM2_PV_Info) (path : String),
        s.lvm2_pv_info_cache_initialized = true →
        (get_vg_name env s path).1 =
          (match s.lvm2_pv_cache.find?
              (fun row => decide ((Utils.split row ",").head? = some path)) with
            | none => ""
            | some row => (Utils.split row ",").getD 2 "")) ∧
    (∀ (env : Env) (s : LVM2_PV_Info) (path row : String),
        s.lvm2_pv_info_cache_initialized = true →
        s.lvm2_pv_cache.find? (fun row => decide ((Utils.split row ",").head? = some path))
          = some row →
        (Utils.split row ",").length < 3 →
        (get_vg_name env s path).1 = "") ∧
    (∀ (env env2 : Env) (s s2 : LVM2_PV_Info) (path row : String)
        (before after after2 : List String),
        s.lvm2_pv_info_cache_initialized = true →
        s2.lvm2_pv_info_cache_initialized = true →
        s.lvm2_pv_cache = before ++ row :: after →
        s2.lvm2_pv_cache = before ++ row :: after2 →
        (∀ r ∈ before, (Utils.split r ",").getD 0 "" ≠ path) →
        (Utils.split row ",").getD 0 "" = path →
        (get_vg_name env s path).1 = (Utils.split row ",").getD 2 "" ∧
          (get_vg_name env2 s2 path).1 = (get_vg_name env s path).1) := by
  have key : ∀ (env : Env) (s : LVM2_PV_Info) (path : String),
      s.lvm2_pv_info_cache_initialized = true →
      (get_vg_name env s path).1 = Ref.attr_of_first_row s.lvm2_pv_cache path PVATTR_VG_NAME := by
    intro env s path h
    unfold get_vg_name
    simp only []
    rw [initialize_if_required_loaded env s h, get_pv_attr_by_path_eq]
  refine ⟨?_, ?_, ?_⟩
  · intro env s path h
    rw [key env s path h]
    rfl
  · intro env s path row h hfind hlen
    rw [key env s path h]
    unfold Ref.attr_of_first_row Ref.first_row Ref.fields
    rw [hfind]
    show (Utils.split row ",").getD 2 "" = ""
    exact List.getD_eq_default _ _ (by omega)
  · intro env env2 s s2 path row before after after2 h h2 hs hs2 hbefore hrow
    have e1 : (get_vg_name env s path).1 = (Utils.split row ",").getD 2 "" := by
      rw [key env s path h, hs]
      unfold Ref.attr_of_first_row
      rw [first_row_append before after row path hbefore hrow]
      rfl
    have e2 : (get_vg_name env2 s2 path).1 = (Utils.split row ",").getD 2 "" := by
      rw [key env2 s2 path h2, hs2]
      unfold Ref.attr_of_first_row
      rw [first_row_append before after2 row path hbefore hrow]
      rfl
    exact ⟨e1, e2.trans e1.symm⟩

/-- Witness of C5 on the example cache of the source: `/dev/sda12` has two rows
and the first one decides. -/
theorem get_vg_name_first_row_witness :
    (loaded example_cache).lvm2_pv_info_cache_initialized = true ∧
      (get_vg_name env_no_lvm (loaded example_cache) "/dev/sda12").1 = "GParted-VG2" :=
  ⟨rfl, (get_vg_name_first_row.1 env_no_lvm (loaded example_cache) "/dev/sda12" rfl).trans
    (by decide)⟩

/-- C6: whole-cache errors dominate.  In every reachable cache state whose
`error_messages` is not empty, `get_error_messages` returns exactly
`error_messages`, same elements in the same order, whatever the path and the
host.  More generally, for any state at all: when the errors the accessor finds
after its initialization step are not empty, they are what it returns. -/
theorem get_error_messages_whole_cache :
    (∀ s : LVM2_PV_Info, Reachable s → s.error_messages ≠ [] →
      ∀ (env : Env) (path : String), (get_error_messages env s path).1 = s.error_messages) ∧
    (∀ (env : Env) (s : LVM2_PV_Info) (path : String),
      (get_error_messages env s path).2.error_messages ≠ [] →
      (get_error_messages env s path).1 = (get_error_messages env s path).2.error_messages) := by
  refine ⟨?_, ?_⟩
  · intro s hr hne env path
    have hinit : s.lvm2_pv_info_cache_initialized = true := by
      cases hi : s.lvm2_pv_info_cache_initialized with
      | true => rfl
      | false => exact absurd (reachable_uninitialized s hr hi).2.1 hne
    rw [get_error_messages_fst, initialize_if_required_loaded env s hinit, if_pos hne]
  · intro env s path hne
    rw [get_error_messages_snd] at hne ⊢
    rw [get_error_messages_fst, if_pos hne]

/-- Witness of C6: after a failed load, a query for a path in no row and in
another host still returns the stored errors. -/
theorem get_error_messages_whole_cache_witness :
    Reachable after_failed_load ∧ after_failed_load.error_messages ≠ [] ∧
      (get_error_messages env_no_lvm after_failed_load "/dev/sdz9").1 =
        after_failed_load.error_messages :=
  ⟨Reachable.step _ _ _ Reachable.initial, by decide,
    get_error_messages_whole_cache.1 after_failed_load
      (Reachable.step _ _ _ Reachable.initial) (by decide) env_no_lvm "/dev/sdz9"⟩

/-- C7: on a loaded cache without whole-cache errors, `get_error_messages`
returns the one-element list holding the fixed advisory text when the `vg_attr`
of the first row matching the path has length at least 4 and a character other
than `-` at index 3 (as `"wz-pn-"`), and the empty list otherwise (as `"wz--n-"`,
or when no row matches). -/
theorem get_error_messages_partial_vg :
    (∀ (env : Env) (s : LVM2_PV_Info) (path : String),
        s.lvm2_pv_info_cache_initialized = true → s.error_messages = [] →
        (get_error_messages env s path).1 =
          if (Ref.attr_of_first_row s.lvm2_pv_cache path PVATTR_VG_BITS).length ≥ 4 ∧
              ustring_at (Ref.attr_of_first_row s.lvm2_pv_cache path PVATTR_VG_BITS) 3 ≠ '-'
          then ["One or more Physical Volumes belonging to the Volume Group is missing.\n"]
          else []) ∧
    (∀ (env : Env) (s : LVM2_PV_Info) (path : String),
        s.lvm2_pv_info_cache_initialized = true → s.error_messages = [] →
        Ref.attr_of_first_row s.lvm2_pv_cache path PVATTR_VG_BITS = "wz-pn-" →
        (get_error_messages env s path).1 =
          ["One or more Physical Volumes belonging to the Volume Group is missing.\n"]) ∧
    (∀ (env : Env) (s : LVM2_PV_Info) (path : String),
        s.lvm2_pv_info_cache_initialized = true → s.error_messages = [] →
        Ref.attr_of_first_row s.lvm2_pv_cache path PVATTR_VG_BITS = "wz--n-" →
        (get_error_messages env s path).1 = []) ∧
    (∀ (env : Env) (s : LVM2_PV_Info) (path : String),
        s.lvm2_pv_info_cache_initialized = true → s.error_messages = [] →
        Ref.first_row s.lvm2_pv_cache path = none →
        (get_error_messages env s path).1 = []) := by
  have key : ∀ (env : Env) (s : LVM2_PV_Info) (path : String),
      s.lvm2_pv_info_cache_initialized = true → s.error_messages = [] →
      (get_error_messages env s path).1 =
        if (Ref.attr_of_first_row s.lvm2_pv_cache path PVATTR_VG_BITS).length ≥ 4 ∧
            ustring_at (Ref.attr_of_first_row s.lvm2_pv_cache path PVATTR_VG_BITS) 3 ≠ '-'
        then ["One or more Physical Volumes belonging to the Volume Group is missing.\n"]
        else [] := by
    intro env s path h he
    rw [get_error_messages_fst, initialize_if_required_loaded env s h, he,
      get_pv_attr_by_path_eq]
    have hadv : partial_vg_advice =
        "One or more Physical Volumes belonging to the Volume Group is missing.\n" := by decide
    rw [hadv]
    simp
  refine ⟨key, ?_, ?_, ?_⟩
  · intro env s path h he hbits
    rw [key env s path h he, hbits]
    decide
  · intro env s path h he hbits
    rw [key env s path h he, hbits]
    decide
  · intro env s path h he hnone
    rw [key env s path h he]
    unfold Ref.attr_of_first_row
    rw [hnone]
    decide

/-- Witness of C7: a physical volume whose volume group carries `"wz-pn-"`. -/
theorem get_error_messages_partial_vg_witness :
    (get_error_messages env_no_lvm
        (loaded ["/dev/sda11,2143289344,GParted-VG1,wz-pn-,,"]) "/dev/sda11").1 =
      ["One or more Physical Volumes belonging to the Volume Group is missing.\n"] :=
  get_error_messages_partial_vg.2.1 env_no_lvm
    (loaded ["/dev/sda11,2143289344,GParted-VG1,wz-pn-,,"]) "/dev/sda11" rfl rfl (by decide)

/-- C9 (amended): failed load.  When the tool is found and the attribute listing
reports failure, the load leaves `error_messages` as: the attempted command
string, then the standard output if it is not empty, then the standard error if
it is not empty, then the fixed three-line advisory; the rows are empty.  The
errors are exactly four when both texts are non-empty. -/
theorem load_failure_errors (env : Env) (s : LVM2_PV_Info) (hfound : s.lvm_found = true)
    (hfail : (env.run pvs_cmd).exit_status ≠ 0) :
    (load_lvm2_pv_info_cache env s).error_messages =
        [pvs_cmd] ++ (if (env.run pvs_cmd).output ≠ "" then [(env.run pvs_cmd).output] else [])
          ++ (if (env.run pvs_cmd).error ≠ "" then [(env.run pvs_cmd).error] else [])
          ++ ["An error occurred reading LVM2 configuration!\nSome or all of the details might be missing or incorrect.\nYou should NOT modify any LVM2 PV partitions.\n"] ∧
      (load_lvm2_pv_info_cache env s).lvm2_pv_cache = [] ∧
      ((env.run pvs_cmd).output ≠ "" → (env.run pvs_cmd).error ≠ "" →
        (load_lvm2_pv_info_cache env s).error_messages =
          [pvs_cmd, (env.run pvs_cmd).output, (env.run pvs_cmd).error, load_error_advice]) := by
  have hadv : load_error_advice =
      "An error occurred reading LVM2 configuration!\nSome or all of the details might be missing or incorrect.\nYou should NOT modify any LVM2 PV partitions.\n" := by
    decide
  have herr : (load_lvm2_pv_info_cache env s).error_messages =
      [pvs_cmd] ++ (if (env.run pvs_cmd).output ≠ "" then [(env.run pvs_cmd).output] else [])
        ++ (if (env.run pvs_cmd).error ≠ "" then [(env.run pvs_cmd).error] else [])
        ++ [load_error_advice] := by
    unfold load_lvm2_pv_info_cache
    simp only [hfound, if_true, execute_command, hfail, if_false]
  refine ⟨?_, ?_, ?_⟩
  · rw [herr, hadv]
  · unfold load_lvm2_pv_info_cache
    simp only [hfound, if_true, execute_command, hfail, if_false]
  · intro ho he
    rw [herr, if_pos ho, if_pos he]
    rfl

/-- Witness of C9: a host where `lvm` is found and the listing fails with an
error text and no output. -/
theorem load_failure_errors_witness :
    (set_command_found env_pvs_fails initial).lvm_found = true ∧
      (env_pvs_fails.run pvs_cmd).exit_status ≠ 0 ∧
      (load_lvm2_pv_info_cache env_pvs_fails
          (set_command_found env_pvs_fails initial)).lvm2_pv_cache = [] :=
  ⟨by decide, by decide,
    (load_failure_errors env_pvs_fails (set_command_found env_pvs_fails initial)
      (by decide) (by decide)).2.1⟩

/-- Counterexample to C9 as stated: the tool is found, the listing fails with an
empty standard output, and the load stores three errors, not four: the command,
the standard error and the advisory. -/
theorem load_failure_three_errors :
    (set_command_found env_pvs_fails initial).lvm_found = true ∧
      (env_pvs_fails.run pvs_cmd).exit_status ≠ 0 ∧
      (load_lvm2_pv_info_cache env_pvs_fails
          (set_command_found env_pvs_fails initial)).error_messages =
        [pvs_cmd, "  /dev/sdb: read failed", load_error_advice] ∧
      (load_lvm2_pv_info_cache env_pvs_fails
          (set_command_found env_pvs_fails initial)).error_messages.length ≠ 4 := by
  decide

/-- C10: idempotence of queries.  For every cache state and host, calling an
accessor a second time with the same argument, with no reload in between, returns
the same result and leaves the state exactly as the first call left it.  For the
five attribute accessors the host of the second call may even differ. -/
theorem queries_idempotent (env : Env) (s : LVM2_PV_Info) :
    is_lvm2_pv_supported env (is_lvm2_pv_supported env s).2 = is_lvm2_pv_supported env s ∧
    (∀ (env2 : Env) (path : String),
      get_vg_name env2 (get_vg_name env s path).2 path = get_vg_name env s path) ∧
    (∀ (env2 : Env) (path : String),
      get_free_bytes env2 (get_free_bytes env s path).2 path = get_free_bytes env s path) ∧
    (∀ (env2 : Env) (path : String),
      has_active_lvs env2 (has_active_lvs env s path).2 path = has_active_lvs env s path) ∧
    (∀ (env2 : Env) (vgname : String),
      is_vg_exported env2 (is_vg_exported env s vgname).2 vgname = is_vg_exported env s vgname) ∧
    (∀ (env2 : Env) (path : String),
      get_error_messages env2 (get_error_messages env s path).2 path =
        get_error_messages env s path) := by
  refine ⟨?_, ?_, ?_, ?_, ?_, ?_⟩
  · unfold is_lvm2_pv_supported
    by_cases hi : s.lvm2_pv_info_cache_initialized = false
    · simp [hi, set_command_found]
    · simp [hi]
  · intro env2 path
    unfold get_vg_name
    simp only [initialize_if_required_idem]
  · intro env2 path
    rw [get_free_bytes_snd]
    unfold get_free_bytes
    simp only [initialize_if_required_idem]
  · intro env2 path
    rw [has_active_lvs_snd]
    unfold has_active_lvs
    simp only [initialize_if_required_idem]
  · intro env2 vgname
    unfold is_vg_exported
    simp only [initialize_if_required_idem]
  · intro env2 path
    rw [get_error_messages_snd]
    unfold get_error_messages
    simp only [initialize_if_required_idem]

/-! ## Lemmas about the load and the lifecycle -/

theorem load_not_found (env : Env) (s : LVM2_PV_Info) (h : s.lvm_found = false) :
    load_lvm2_pv_info_cache env s = { s with lvm2_pv_cache := [], error_messages := [] } := by
  unfold load_lvm2_pv_info_cache
  simp [h]

/-- The first load in a host without `lvm`: the flags are set and nothing else
happens. -/
theorem initialize_not_found (env : Env) (s : LVM2_PV_Info)
    (hun : s.lvm2_pv_info_cache_initialized = false)
    (hnot : env.find_program_in_path "lvm" = "") :
    initialize_if_required env s =
      { s with lvm2_pv_info_cache_initialized := true, lvm_found := false,
               lvm2_pv_cache := [], error_messages := [] } := by
  unfold initialize_if_required
  rw [if_pos hun, load_not_found env (set_command_found env s) (by simp [set_command_found, hnot])]
  simp [set_command_found, hnot]

theorem get_pv_attr_by_path_nil (path : String) (k : Nat) : get_pv_attr_by_path [] path k = "" := by
  unfold get_pv_attr_by_path
  rfl

/-- The accessors on a state without rows and without whole-cache errors. -/
theorem accessors_on_empty (env : Env) (s : LVM2_PV_Info)
    (hrows : (initialize_if_required env s).lvm2_pv_cache = [])
    (herrs : (initialize_if_required env s).error_messages = []) :
    (∀ path : String, (get_vg_name env s path).1 = "" ∧ (get_free_bytes env s path).1 = -1 ∧
      (has_active_lvs env s path).1 = false ∧ (get_error_messages env s path).1 = []) ∧
    (∀ vgname : String, (is_vg_exported env s vgname).1 = false) := by
  refine ⟨fun path => ⟨?_, ?_, ?_, ?_⟩, fun vgname => ?_⟩
  · unfold get_vg_name
    simp only [hrows, get_pv_attr_by_path_nil]
  · rw [get_free_bytes_fst, hrows, get_pv_attr_by_path_nil]
    simp
  · rw [has_active_lvs_fst, hrows, get_pv_attr_by_path_nil]
    simp
  · rw [get_error_messages_fst, hrows, herrs, get_pv_attr_by_path_nil]
    decide
  · unfold is_vg_exported
    simp only [hrows]
    rfl

/-- What an operation does to the state: nothing, a probe, or a probe and a
load. -/
theorem run_cases (env : Env) (s : LVM2_PV_Info) (op : Op) :
    op.run env s = s ∨ op.run env s = set_command_found env s ∨
      op.run env s =
        { load_lvm2_pv_info_cache env (set_command_found env s) with
          lvm2_pv_info_cache_initialized := true } := by
  have hinit : initialize_if_required env s = s ∨
      initialize_if_required env s =
        { load_lvm2_pv_info_cache env (set_command_found env s) with
          lvm2_pv_info_cache_initialized := true } := by
    unfold initialize_if_required
    split_ifs
    · exact Or.inr rfl
    · exact Or.inl rfl
  cases op with
  | construct_default => exact Or.inl rfl
  | construct do_refresh =>
    cases do_refresh with
    | false => exact Or.inl rfl
    | true => exact Or.inr (Or.inr rfl)
  | is_lvm2_pv_supported =>
    simp only [Op.run, is_lvm2_pv_supported]
    split_ifs
    · exact Or.inr (Or.inl rfl)
    · exact Or.inl rfl
  | get_vg_name path =>
    simp only [Op.run, get_vg_name]
    exact hinit.imp id Or.inr
  | get_free_bytes path =>
    simp only [Op.run, get_free_bytes_snd]
    exact hinit.imp id Or.inr
  | has_active_lvs path =>
    simp only [Op.run, has_active_lvs_snd]
    exact hinit.imp id Or.inr
  | is_vg_exported vgname =>
    simp only [Op.run, is_vg_exported]
    exact hinit.imp id Or.inr
  | get_error_messages path =>
    simp only [Op.run, get_error_messages_snd]
    exact hinit.imp id Or.inr

/-- A load leaves rows or errors, never both, and stored errors start with the
command line. -/
theorem load_exclusive (env : Env) (s : LVM2_PV_Info) :
    ((load_lvm2_pv_info_cache env s).lvm2_pv_cache = [] ∨
        (load_lvm2_pv_info_cache env s).error_messages = []) ∧
      ((load_lvm2_pv_info_cache env s).error_messages = [] ∨
        (load_lvm2_pv_info_cache env s).error_messages.head? = some pvs_cmd) := by
  unfold load_lvm2_pv_info_cache
  simp only [execute_command]
  split_ifs <;> simp

theorem reachable_exclusive (s : LVM2_PV_Info) (hr : Reachable s) :
    (s.lvm2_pv_cache = [] ∨ s.error_messages = []) ∧
      (s.error_messages = [] ∨ s.error_messages.head? = some pvs_cmd) := by
  induction hr with
  | initial => exact ⟨Or.inl rfl, Or.inl rfl⟩
  | step env op s _ ih =>
    rcases run_cases env s op with h | h | h
    · rw [h]
      exact ih
    · rw [h]
      exact ih
    · rw [h]
      exact load_exclusive env (set_command_found env s)

/-- C11: tool not found.  From an uninitialized cache (the static initial state
or any reachable state before the first load), in a host where the `lvm`
executable is not found, `is_lvm2_pv_supported` returns false and, for every
path and volume group name, `get_vg_name` returns the empty string,
`get_free_bytes` returns -1, `has_active_lvs` and `is_vg_exported` return false
and `get_error_messages` returns the empty list; whatever the operation, no
external command is run and the errors stay empty. -/
theorem tool_not_found (env : Env) (s : LVM2_PV_Info) (hr : Reachable s)
    (hun : s.lvm2_pv_info_cache_initialized = false)
    (hnot : env.find_program_in_path "lvm" = "") :
    (is_lvm2_pv_supported env s).1 = false ∧
      (∀ path : String, (get_vg_name env s path).1 = "" ∧ (get_free_bytes env s path).1 = -1 ∧
        (has_active_lvs env s path).1 = false ∧ (get_error_messages env s path).1 = []) ∧
      (∀ vgname : String, (is_vg_exported env s vgname).1 = false) ∧
      (∀ op : Op, (op.run env s).commands_run = [] ∧ (op.run env s).error_messages = []) := by
  obtain ⟨_, herr, hlog⟩ := reachable_uninitialized s hr hun
  have hinit := initialize_not_found env s hun hnot
  have hacc := accessors_on_empty env s (by rw [hinit]) (by rw [hinit])
  refine ⟨?_, hacc.1, hacc.2, ?_⟩
  · unfold is_lvm2_pv_supported
    simp [hun, set_command_found, hnot]
  · intro op
    rcases run_cases env s op with h | h | h
    · rw [h]
      exact ⟨hlog, herr⟩
    · rw [h]
      exact ⟨hlog, herr⟩
    · rw [h, load_not_found env (set_command_found env s) (by simp [set_command_found, hnot])]
      exact ⟨hlog, rfl⟩

/-- Witness of C11: the static initial state in a host without `lvm`. -/
theorem tool_not_found_witness :
    Reachable initial ∧ initial.lvm2_pv_info_cache_initialized = false ∧
      env_no_lvm.find_program_in_path "lvm" = "" ∧
      (is_lvm2_pv_supported env_no_lvm initial).1 = false :=
  ⟨Reachable.initial, rfl, rfl, (tool_not_found env_no_lvm initial Reachable.initial rfl rfl).1⟩

/-- C12: two-state lifecycle.  No operation (default construction, construction
with or without refresh, `is_lvm2_pv_supported`, any attribute accessor) changes
the initialized flag from true to false; after any attribute accessor and after
a construction with refresh requested the flag is true. -/
theorem initialized_monotone :
    (∀ (env : Env) (s : LVM2_PV_Info) (op : Op),
        s.lvm2_pv_info_cache_initialized = true →
        (op.run env s).lvm2_pv_info_cache_initialized = true) ∧
    (∀ (env : Env) (s : LVM2_PV_Info) (path : String),
        (get_vg_name env s path).2.lvm2_pv_info_cache_initialized = true ∧
        (get_free_bytes env s path).2.lvm2_pv_info_cache_initialized = true ∧
        (has_active_lvs env s path).2.lvm2_pv_info_cache_initialized = true ∧
        (is_vg_exported env s path).2.lvm2_pv_info_cache_initialized = true ∧
        (get_error_messages env s path).2.lvm2_pv_info_cache_initialized = true) ∧
    (∀ (env : Env) (s : LVM2_PV_Info),
        (construct env s true).lvm2_pv_info_cache_initialized = true) := by
  refine ⟨?_, ?_, ?_⟩
  · intro env s op h
    rcases run_cases env s op with h1 | h1 | h1
    · rw [h1]
      exact h
    · rw [h1]
      exact h
    · rw [h1]
  · intro env s path
    refine ⟨?_, ?_, ?_, ?_, ?_⟩
    · exact initialize_if_required_initialized env s
    · rw [get_free_bytes_snd]
      exact initialize_if_required_initialized env s
    · rw [has_active_lvs_snd]
      exact initialize_if_required_initialized env s
    · exact initialize_if_required_initialized env s
    · rw [get_error_messages_snd]
      exact initialize_if_required_initialized env s
  · intro env s
    rfl

/-- Witness of C12: a loaded cache stays initialized under a probe in a host
without `lvm`. -/
theorem initialized_monotone_witness :
    (loaded example_cache).lvm2_pv_info_cache_initialized = true ∧
      (Op.run env_no_lvm (loaded example_cache)
        Op.is_lvm2_pv_supported).lvm2_pv_info_cache_initialized = true :=
  ⟨rfl, initialized_monotone.1 env_no_lvm (loaded example_cache) Op.is_lvm2_pv_supported rfl⟩

/-- C13: file system support.  `get_filesystem_support` returns a record whose
file system is `FS_LVM2_PV` and whose read capability is `EXTERNAL` exactly when
`is_lvm2_pv_supported` reports the tool as found; when it is not found, read
keeps its default `NONE`; every other capability and both limits keep their
default values.  The cache is left as `is_lvm2_pv_supported` leaves it. -/
theorem get_filesystem_support_read (env : Env) (s : LVM2_PV_Info) :
    (lvm2_pv.get_filesystem_support env s).1.filesystem = FILESYSTEM.FS_LVM2_PV ∧
      ((lvm2_pv.get_filesystem_support env s).1.read = Support.EXTERNAL ↔
        (is_lvm2_pv_supported env s).1 = true) ∧
      ((is_lvm2_pv_supported env s).1 = false →
        (lvm2_pv.get_filesystem_support env s).1.read = Support.NONE) ∧
      (lvm2_pv.get_filesystem_support env s).1 =
        { FS.fresh with
          filesystem := FILESYSTEM.FS_LVM2_PV
          read := (lvm2_pv.get_filesystem_support env s).1.read } ∧
      (lvm2_pv.get_filesystem_support env s).2 = (is_lvm2_pv_supported env s).2 := by
  unfold lvm2_pv.get_filesystem_support construct_default
  simp only []
  cases hsup : (is_lvm2_pv_supported env s).1 with
  | true => simp [FS.fresh]
  | false => simp [FS.fresh]

/-- C14: the stubbed operations of the shim.  `write_label`, `write_uuid`,
`create`, `resize`, `move`, `copy` and `check_repair` return true for every
input; `read_label` and `read_uuid` leave the partition unchanged; none of them
changes the cache state, and none of their results depends on it. -/
theorem stubs_succeed {Partition OperationDetail : Type} (s s2 : LVM2_PV_Info)
    (partition partition_old : Partition) (operationdetail : OperationDetail)
    (src_part_path dest_part_path : String) (fill_partition : Bool) :
    ((lvm2_pv.write_label s partition operationdetail).1 = true ∧
      (lvm2_pv.write_uuid s partition operationdetail).1 = true ∧
      (lvm2_pv.create s partition operationdetail).1 = true ∧
      (lvm2_pv.resize s partition operationdetail fill_partition).1 = true ∧
      (lvm2_pv.move s partition partition_old operationdetail).1 = true ∧
      (lvm2_pv.copy s src_part_path dest_part_path operationdetail).1 = true ∧
      (lvm2_pv.check_repair s partition operationdetail).1 = true) ∧
    ((lvm2_pv.read_label s partition).1 = partition ∧
      (lvm2_pv.read_uuid s partition).1 = partition) ∧
    ((lvm2_pv.write_label s partition operationdetail).2.2 = s ∧
      (lvm2_pv.write_uuid s partition operationdetail).2.2 = s ∧
      (lvm2_pv.create s partition operationdetail).2.2 = s ∧
      (lvm2_pv.resize s partition operationdetail fill_partition).2.2 = s ∧
      (lvm2_pv.move s partition partition_old operationdetail).2.2 = s ∧
      (lvm2_pv.copy s src_part_path dest_part_path operationdetail).2.2 = s ∧
      (lvm2_pv.check_repair s partition operationdetail).2.2 = s ∧
      (lvm2_pv.read_label s partition).2 = s ∧
      (lvm2_pv.read_uuid s partition).2 = s) ∧
    ((lvm2_pv.write_label s2 partition operationdetail).1 =
        (lvm2_pv.write_label s partition operationdetail).1 ∧
      (lvm2_pv.write_uuid s2 partition operationdetail).1 =
        (lvm2_pv.write_uuid s partition operationdetail).1 ∧
      (lvm2_pv.create s2 partition operationdetail).1 =
        (lvm2_pv.create s partition operationdetail).1 ∧
      (lvm2_pv.resize s2 partition operationdetail fill_partition).1 =
        (lvm2_pv.resize s partition operationdetail fill_partition).1 ∧
      (lvm2_pv.move s2 partition partition_old operationdetail).1 =
        (lvm2_pv.move s partition partition_old operationdetail).1 ∧
      (lvm2_pv.copy s2 src_part_path dest_part_path operationdetail).1 =
        (lvm2_pv.copy s src_part_path dest_part_path operationdetail).1 ∧
      (lvm2_pv.check_repair s2 partition operationdetail).1 =
        (lvm2_pv.check_repair s partition operationdetail).1 ∧
      (lvm2_pv.read_label s2 partition).1 = (lvm2_pv.read_label s partition).1 ∧
      (lvm2_pv.read_uuid s2 partition).1 = (lvm2_pv.read_uuid s partition).1) :=
  ⟨⟨rfl, rfl, rfl, rfl, rfl, rfl, rfl⟩, ⟨rfl, rfl⟩,
    ⟨rfl, rfl, rfl, rfl, rfl, rfl, rfl, rfl, rfl⟩,
    ⟨rfl, rfl, rfl, rfl, rfl, rfl, rfl, rfl, rfl⟩⟩

/-- C15: the two error tiers exclude each other.  In every cache state reachable
from the static initial state by any sequence of operations, refresh included,
rows and whole-cache errors are never both non-empty; and when
`get_error_messages` returns the per-PV advisory, the whole-cache errors of the
state it answered from are empty. -/
theorem rows_errors_exclusive :
    (∀ s : LVM2_PV_Info, Reachable s → s.lvm2_pv_cache = [] ∨ s.error_messages = []) ∧
    (∀ s : LVM2_PV_Info, Reachable s → ∀ (env : Env) (path : String),
      (get_error_messages env s path).1 = [partial_vg_advice] →
      (get_error_messages env s path).2.error_messages = []) := by
  refine ⟨fun s hr => (reachable_exclusive s hr).1, ?_⟩
  intro s hr env path hres
  have hr2 : Reachable (get_error_messages env s path).2 :=
    Reachable.step env (Op.get_error_messages path) s hr
  rw [get_error_messages_snd] at hr2 ⊢
  rcases (reachable_exclusive _ hr2).2 with h | h
  · exact h
  · exfalso
    have hne : (initialize_if_required env s).error_messages ≠ [] := by
      intro h0
      rw [h0] at h
      simp at h
    rw [get_error_messages_fst, if_pos hne] at hres
    rw [hres] at h
    revert h
    decide

/-- Witness of C15: after a failed load the rows are empty. -/
theorem rows_errors_exclusive_witness :
    Reachable after_failed_load ∧
      (after_failed_load.lvm2_pv_cache = [] ∨ after_failed_load.error_messages = []) :=
  ⟨Reachable.step _ _ _ Reachable.initial,
    rows_errors_exclusive.1 after_failed_load (Reachable.step _ _ _ Reachable.initial)⟩

/-- C16: `is_lvm2_pv_supported` only detects.  In every state and host it leaves
the rows, the errors and the initialized flag unchanged and runs no external
command; on an uninitialized cache it stores the probe result in `lvm_found` and
returns it; on an initialized cache it returns the stored `lvm_found` whatever
the host and leaves the whole state unchanged. -/
theorem is_lvm2_pv_supported_detects_only (env : Env) (s : LVM2_PV_Info) :
    ((is_lvm2_pv_supported env s).2.lvm2_pv_cache = s.lvm2_pv_cache ∧
      (is_lvm2_pv_supported env s).2.error_messages = s.error_messages ∧
      (is_lvm2_pv_supported env s).2.lvm2_pv_info_cache_initialized =
        s.lvm2_pv_info_cache_initialized ∧
      (is_lvm2_pv_supported env s).2.commands_run = s.commands_run) ∧
    (s.lvm2_pv_info_cache_initialized = false →
      (is_lvm2_pv_supported env s).2.lvm_found =
          decide (env.find_program_in_path "lvm" ≠ "") ∧
        (is_lvm2_pv_supported env s).1 = decide (env.find_program_in_path "lvm" ≠ "")) ∧
    (s.lvm2_pv_info_cache_initialized = true →
      is_lvm2_pv_supported env s = (s.lvm_found, s)) := by
  unfold is_lvm2_pv_supported
  cases hi : s.lvm2_pv_info_cache_initialized with
  | true => simp [hi]
  | false => simp [set_command_found, hi]

/-- Witness of C16: on the loaded example cache, a host without `lvm` still gets
the stored answer. -/
theorem is_lvm2_pv_supported_detects_only_witness :
    (loaded example_cache).lvm2_pv_info_cache_initialized = true ∧
      is_lvm2_pv_supported env_no_lvm (loaded example_cache) = (true, loaded example_cache) :=
  ⟨rfl, (is_lvm2_pv_supported_detects_only env_no_lvm (loaded example_cache)).2.2 rfl⟩

/-! ## Lemmas about lines and trimming -/

theorem getLast?_dropWhile (p : Char → Bool) (x : List Char) (c : Char)
    (h : (x.dropWhile p).getLast? = some c) : x.getLast? = some c := by
  have happ := List.takeWhile_append_dropWhile p x
  rw [← happ, List.getLast?_append, h]
  rfl

/-- The characters of a trimmed text: none is new, and neither the first nor the
last is one of the trimmed characters. -/
theorem trim_chars (src : String) :
    (∀ c ∈ (Utils.trim src).toList, c ∈ src.toList) ∧
      (∀ c, (Utils.trim src).toList.head? = some c → Utils.isTrimChar c = false) ∧
      (∀ c, (Utils.trim src).toList.getLast? = some c → Utils.isTrimChar c = false) := by
  unfold Utils.trim
  simp only [String.toList]
  refine ⟨?_, ?_, ?_⟩
  · intro c hc
    rw [List.mem_reverse] at hc
    have h1 := (List.dropWhile_sublist Utils.isTrimChar).subset hc
    rw [List.mem_reverse] at h1
    exact (List.dropWhile_sublist Utils.isTrimChar).subset h1
  · intro c hc
    rw [List.head?_reverse] at hc
    have h1 := getLast?_dropWhile _ _ _ hc
    rw [List.getLast?_reverse] at h1
    have h2 := List.head?_dropWhile_not Utils.isTrimChar src.data
    rw [h1] at h2
    simpa using h2
  · intro c hc
    rw [List.getLast?_reverse] at hc
    have h2 := List.head?_dropWhile_not Utils.isTrimChar
      (List.dropWhile Utils.isTrimChar src.data).reverse
    rw [hc] at h2
    simpa using h2

/-- The scan of `Utils::tokenize` against the lines of the text: the token being
read continues the first line, and lines without a character are left out. -/
theorem tokenizeChars_eq (cs : List Char) (cur : List Char) :
    Utils.tokenizeChars ['\n'] cur cs =
      (match Ref.linesChars cs with
        | [] => [cur.reverse]
        | l :: ls => (cur.reverse ++ l) :: ls).filter (fun l => decide (l ≠ [])) := by
  induction cs generalizing cur with
  | nil =>
    unfold Utils.tokenizeChars Ref.linesChars
    by_cases hc : cur = []
    · simp [hc]
    · simp [hc]
  | cons c cs ih =>
    unfold Utils.tokenizeChars Ref.linesChars
    by_cases hnl : c = '\n'
    · have hmem : c ∈ ['\n'] := List.mem_singleton.mpr hnl
      rw [if_pos hmem, if_pos hnl, ih []]
      have hrest : ((match Ref.linesChars cs with
          | [] => [([] : List Char).reverse]
          | l :: ls => (([] : List Char).reverse ++ l) :: ls).filter
            (fun l => decide (l ≠ []))) =
          (Ref.linesChars cs).filter (fun l => decide (l ≠ [])) := by
        cases Ref.linesChars cs with
        | nil => simp
        | cons l ls => simp
      rw [hrest]
      by_cases hc : cur = []
      · simp [hc]
      · simp [hc]
    · have hmem : c ∉ ['\n'] := fun h => hnl (List.mem_singleton.mp h)
      rw [if_neg hmem, if_neg hnl, ih (c :: cur)]
      cases Ref.linesChars cs with
      | nil => simp
      | cons l ls => simp

theorem tokenize_eq_nonEmptyLines (out : String) :
    Utils.tokenize out "\n" = Ref.nonEmptyLines out := by
  unfold Utils.tokenize Ref.nonEmptyLines Ref.lines
  have hd : ("\n" : String).toList = ['\n'] := rfl
  rw [hd, tokenizeChars_eq, List.filter_map]
  have hfun : ((fun line : String => decide (line ≠ "")) ∘ String.mk) =
      (fun l : List Char => decide (l ≠ [])) := by
    funext l
    have hiff : String.mk l ≠ "" ↔ l ≠ [] := by
      constructor
      · intro h h0
        exact h (by rw [h0])
      · intro h h0
        exact h (congrArg String.data h0)
    simp only [Function.comp, hiff]
  rw [hfun]
  cases Ref.linesChars out.toList with
  | nil => simp
  | cons l ls => simp

theorem linesChars_no_newline (cs : List Char) :
    ∀ line ∈ Ref.linesChars cs, '\n' ∉ line := by
  induction cs with
  | nil =>
    intro line hline
    simp [Ref.linesChars] at hline
  | cons c cs ih =>
    intro line hline
    unfold Ref.linesChars at hline
    by_cases hnl : c = '\n'
    · rw [if_pos hnl] at hline
      rcases List.mem_cons.mp hline with h | h
      · rw [h]
        simp
      · exact ih line h
    · rw [if_neg hnl] at hline
      cases hs : Ref.linesChars cs with
      | nil =>
        rw [hs] at hline
        simp only [List.mem_singleton] at hline
        rw [hline]
        intro hmem
        exact hnl (List.mem_singleton.mp hmem).symm
      | cons l ls =>
        rw [hs] at hline ih
        simp only [] at hline
        rcases List.mem_cons.mp hline with h | h
        · rw [h]
          intro hmem
          rcases List.mem_cons.mp hmem with h1 | h1
          · exact hnl h1.symm
          · exact ih l (List.mem_cons_self _ _) h1
        · exact ih line (List.mem_cons_of_mem _ h)

theorem isTrimChar_eq (c : Char) : Utils.isTrimChar c = c.isWhitespace := by
  unfold Utils.isTrimChar Char.isWhitespace
  rfl

/-- The model of `Utils::trim` trims: what it removes from both ends is white
space, and what it leaves neither starts nor ends with white space. -/
theorem trim_isTrimOf (src : String) : Ref.IsTrimOf src (Utils.trim src) := by
  have hchars := trim_chars src
  refine ⟨src.toList.takeWhile Utils.isTrimChar,
    ((src.toList.dropWhile Utils.isTrimChar).reverse.takeWhile Utils.isTrimChar).reverse,
    ?_, ?_, ?_, ?_, ?_⟩
  · have h1 := List.takeWhile_append_dropWhile Utils.isTrimChar src.toList
    have h2 := List.takeWhile_append_dropWhile Utils.isTrimChar
      (src.toList.dropWhile Utils.isTrimChar).reverse
    have h3 := congrArg List.reverse h2
    rw [List.reverse_append, List.reverse_reverse] at h3
    unfold Utils.trim
    show src.toList = _ ++ (List.dropWhile Utils.isTrimChar
      (List.dropWhile Utils.isTrimChar src.toList).reverse).reverse ++ _
    rw [List.append_assoc, h3, h1]
  · intro c hc
    rw [← isTrimChar_eq]
    exact List.mem_takeWhile_imp hc
  · intro c hc
    rw [← isTrimChar_eq]
    exact List.mem_takeWhile_imp (List.mem_reverse.mp hc)
  · intro c hc
    rw [← isTrimChar_eq]
    exact hchars.2.1 c hc
  · intro c hc
    rw [← isTrimChar_eq]
    exact hchars.2.2 c hc

theorem nonEmptyLines_no_newline (out : String) :
    ∀ line ∈ Ref.nonEmptyLines out, '\n' ∉ line.toList := by
  intro line hline
  unfold Ref.nonEmptyLines Ref.lines at hline
  obtain ⟨piece, hpiece, rfl⟩ := List.mem_map.mp (List.mem_filter.mp hline).1
  exact linesChars_no_newline out.toList piece hpiece

theorem load_success_state (env : Env) (s : LVM2_PV_Info) (hfound : s.lvm_found = true)
    (hok : (env.run pvs_cmd).exit_status = 0) :
    (load_lvm2_pv_info_cache env s).lvm2_pv_cache =
        (Ref.nonEmptyLines (env.run pvs_cmd).output).map Utils.trim ∧
      (load_lvm2_pv_info_cache env s).error_messages = [] := by
  unfold load_lvm2_pv_info_cache
  simp only [hfound, if_true, execute_command, hok]
  by_cases hout : (env.run pvs_cmd).output = ""
  · have hnone : Ref.nonEmptyLines "" = [] := by decide
    simp [hout, hnone]
  · simp [hout, tokenize_eq_nonEmptyLines]

/-- C17 (amended): successful load.  When the tool is found and the attribute
listing succeeds with standard output `out`, the rows are the lines of `out`
that have at least one character, each trimmed of surrounding white space
(space, tab, carriage return, newline), in the same order, and the errors are
empty.  So there are as many rows as non-empty lines, and no row contains a
newline or starts or ends with a white space character.  An empty line gives no
row. -/
theorem load_success_rows (env : Env) (s : LVM2_PV_Info) (hfound : s.lvm_found = true)
    (hok : (env.run pvs_cmd).exit_status = 0) :
    List.Forall₂ (fun row line => Ref.IsTrimOf line row)
        (load_lvm2_pv_info_cache env s).lvm2_pv_cache
        (Ref.nonEmptyLines (env.run pvs_cmd).output) ∧
      (load_lvm2_pv_info_cache env s).error_messages = [] ∧
      (load_lvm2_pv_info_cache env s).lvm2_pv_cache.length =
        (Ref.nonEmptyLines (env.run pvs_cmd).output).length ∧
      (∀ row ∈ (load_lvm2_pv_info_cache env s).lvm2_pv_cache,
        '\n' ∉ row.toList ∧
          (∀ c, row.toList.head? = some c → c.isWhitespace = false) ∧
          (∀ c, row.toList.getLast? = some c → c.isWhitespace = false)) := by
  obtain ⟨hrows, herrs⟩ := load_success_state env s hfound hok
  refine ⟨?_, herrs, ?_, ?_⟩
  · rw [hrows, List.forall₂_map_left_iff, List.forall₂_same]
    intro line _
    exact trim_isTrimOf line
  · rw [hrows, List.length_map]
  · intro row hrow
    rw [hrows] at hrow
    obtain ⟨line, hline, rfl⟩ := List.mem_map.mp hrow
    obtain ⟨pre, post, _, _, _, hhead, hlast⟩ := trim_isTrimOf line
    exact ⟨fun hmem => nonEmptyLines_no_newline _ line hline ((trim_chars line).1 _ hmem),
      hhead, hlast⟩

/-- Witness of C17: a listing of two indented lines gives the two rows without
the indentation, and no third row for the end of the text. -/
theorem load_success_rows_witness :
    (set_command_found env_pvs_ok initial).lvm_found = true ∧
      (env_pvs_ok.run pvs_cmd).exit_status = 0 ∧
      (load_lvm2_pv_info_cache env_pvs_ok (set_command_found env_pvs_ok initial)).lvm2_pv_cache =
        ["/dev/sda10,2147483648,,r-----,,", "/dev/sda11,2143289344,GParted-VG1,wz--n-,,"] ∧
      (load_lvm2_pv_info_cache env_pvs_ok
          (set_command_found env_pvs_ok initial)).error_messages = [] ∧
      (load_lvm2_pv_info_cache env_pvs_ok
          (set_command_found env_pvs_ok initial)).lvm2_pv_cache.length =
        (Ref.nonEmptyLines (env_pvs_ok.run pvs_cmd).output).length :=
  ⟨by decide, by decide, by decide,
    (load_success_rows env_pvs_ok (set_command_found env_pvs_ok initial)
      (by decide) (by decide)).2.1,
    (load_success_rows env_pvs_ok (set_command_found env_pvs_ok initial)
      (by decide) (by decide)).2.2.1⟩

/-- Counterexample to C17 as stated: the tool is found and the listing succeeds
with three lines, the second one empty; the load stores two rows, so the rows
are not the lines of the output and their number is not the number of lines. -/
theorem load_success_blank_line :
    (set_command_found env_pvs_blank_line initial).lvm_found = true ∧
      (env_pvs_blank_line.run pvs_cmd).exit_status = 0 ∧
      Ref.lines (env_pvs_blank_line.run pvs_cmd).output =
        ["  /dev/sda10,2147483648,,r-----,,", "",
          "  /dev/sda11,2143289344,GParted-VG1,wz--n-,,"] ∧
      (load_lvm2_pv_info_cache env_pvs_blank_line
          (set_command_found env_pvs_blank_line initial)).lvm2_pv_cache =
        ["/dev/sda10,2147483648,,r-----,,", "/dev/sda11,2143289344,GParted-VG1,wz--n-,,"] ∧
      (load_lvm2_pv_info_cache env_pvs_blank_line
          (set_command_found env_pvs_blank_line initial)).lvm2_pv_cache.length ≠
        (Ref.lines (env_pvs_blank_line.run pvs_cmd).output).length := by
  decide

/-! ## Lemmas about appended rows -/

theorem first_row_append_of_match (rows more : List String) (path : String)
    (h : ∃ row ∈ rows, Ref.field row PVATTR_PV_NAME = path) :
    Ref.first_row (rows ++ more) path = Ref.first_row rows path := by
  unfold Ref.first_row
  rw [List.find?_append]
  have hsome : (rows.find? (fun row => decide ((Ref.fields row).head? = some path))).isSome := by
    rw [List.find?_isSome]
    obtain ⟨row, hrow, hf⟩ := h
    refine ⟨row, hrow, ?_⟩
    rw [head?_fields, ← hf]
    simp [PVATTR_PV_NAME]
  cases hfind : rows.find? (fun row => decide ((Ref.fields row).head? = some path)) with
  | none =>
    rw [hfind] at hsome
    simp at hsome
  | some x => rfl

theorem attr_of_first_row_append (rows more : List String) (path : String) (k : Nat)
    (h : ∃ row ∈ rows, Ref.field row PVATTR_PV_NAME = path) :
    Ref.attr_of_first_row (rows ++ more) path k = Ref.attr_of_first_row rows path k := by
  unfold Ref.attr_of_first_row
  rw [first_row_append_of_match rows more path h]

theorem match_of_attr_ne_empty (rows : List String) (path : String) (k : Nat)
    (h : Ref.attr_of_first_row rows path k ≠ "") :
    ∃ row ∈ rows, Ref.field row PVATTR_PV_NAME = path := by
  by_contra hno
  apply h
  apply attr_of_first_row_absent
  intro r hr hf
  exact hno ⟨r, hr, hf⟩

/-- C18: `has_active_lvs` depends on the path only through the volume group it
resolves to.  For every cache state, loaded or not, and every two paths for
which `get_vg_name` gives the same name, `has_active_lvs` gives the same
answer. -/
theorem has_active_lvs_by_vg_name (env : Env) (s : LVM2_PV_Info) (p1 p2 : String)
    (hvg : (get_vg_name env s p1).1 = (get_vg_name env s p2).1) :
    (has_active_lvs env s p1).1 = (has_active_lvs env s p2).1 := by
  unfold get_vg_name at hvg
  simp only [] at hvg
  rw [has_active_lvs_fst, has_active_lvs_fst, hvg]

/-- Witness of C18: two physical volumes of one volume group, the active
logical volume listed with the first only. -/
theorem has_active_lvs_by_vg_name_witness :
    (get_vg_name env_no_lvm
        (loaded ["/dev/sda1,100,VG,wz--n-,lvol0,-wi-a-", "/dev/sdb1,100,VG,wz--n-,,"])
        "/dev/sda1").1 =
      (get_vg_name env_no_lvm
        (loaded ["/dev/sda1,100,VG,wz--n-,lvol0,-wi-a-", "/dev/sdb1,100,VG,wz--n-,,"])
        "/dev/sdb1").1 ∧
    (has_active_lvs env_no_lvm
        (loaded ["/dev/sda1,100,VG,wz--n-,lvol0,-wi-a-", "/dev/sdb1,100,VG,wz--n-,,"])
        "/dev/sda1").1 =
      (has_active_lvs env_no_lvm
        (loaded ["/dev/sda1,100,VG,wz--n-,lvol0,-wi-a-", "/dev/sdb1,100,VG,wz--n-,,"])
        "/dev/sdb1").1 :=
  ⟨by decide,
    has_active_lvs_by_vg_name env_no_lvm
      (loaded ["/dev/sda1,100,VG,wz--n-,lvol0,-wi-a-", "/dev/sdb1,100,VG,wz--n-,,"])
      "/dev/sda1" "/dev/sdb1" (by decide)⟩

/-- C19: monotonicity under an appended row.  On a loaded cache with rows `R`,
appending a row `r` keeps `has_active_lvs` true for a path where it was true,
keeps `is_vg_exported` true for a name where it was true, and leaves
`get_vg_name` and `get_free_bytes` unchanged for a path that matches a row of
`R`. -/
theorem append_row_monotone :
    (∀ (env : Env) (s : LVM2_PV_Info) (r path : String),
        s.lvm2_pv_info_cache_initialized = true →
        (has_active_lvs env s path).1 = true →
        (has_active_lvs env { s with lvm2_pv_cache := s.lvm2_pv_cache ++ [r] } path).1 = true) ∧
    (∀ (env : Env) (s : LVM2_PV_Info) (r vgname : String),
        s.lvm2_pv_info_cache_initialized = true →
        (is_vg_exported env s vgname).1 = true →
        (is_vg_exported env { s with lvm2_pv_cache := s.lvm2_pv_cache ++ [r] } vgname).1 = true) ∧
    (∀ (env : Env) (s : LVM2_PV_Info) (r path : String),
        s.lvm2_pv_info_cache_initialized = true →
        (∃ row ∈ s.lvm2_pv_cache, Ref.field row PVATTR_PV_NAME = path) →
        (get_vg_name env { s with lvm2_pv_cache := s.lvm2_pv_cache ++ [r] } path).1 =
            (get_vg_name env s path).1 ∧
          (get_free_bytes env { s with lvm2_pv_cache := s.lvm2_pv_cache ++ [r] } path).1 =
            (get_free_bytes env s path).1) := by
  refine ⟨?_, ?_, ?_⟩
  · intro env s r path h htrue
    have h2 : ({ s with lvm2_pv_cache := s.lvm2_pv_cache ++ [r] } :
        LVM2_PV_Info).lvm2_pv_info_cache_initialized = true := h
    rw [has_active_lvs_iff, initialize_if_required_loaded env _ h] at htrue
    rw [has_active_lvs_iff, initialize_if_required_loaded env _ h2]
    obtain ⟨hvg, row, hrow, hrvg, hlen, hbit⟩ := htrue
    have hmatch := match_of_attr_ne_empty _ _ _ hvg
    simp only []
    rw [attr_of_first_row_append _ _ _ _ hmatch]
    exact ⟨hvg, row, List.mem_append_left _ hrow, hrvg, hlen, hbit⟩
  · intro env s r vgname h htrue
    have h2 : ({ s with lvm2_pv_cache := s.lvm2_pv_cache ++ [r] } :
        LVM2_PV_Info).lvm2_pv_info_cache_initialized = true := h
    rw [is_vg_exported_iff, initialize_if_required_loaded env _ h] at htrue
    rw [is_vg_exported_iff, initialize_if_required_loaded env _ h2]
    obtain ⟨row, hrow, hrest⟩ := htrue
    exact ⟨row, List.mem_append_left _ hrow, hrest⟩
  · intro env s r path h hmatch
    have h2 : ({ s with lvm2_pv_cache := s.lvm2_pv_cache ++ [r] } :
        LVM2_PV_Info).lvm2_pv_info_cache_initialized = true := h
    refine ⟨?_, ?_⟩
    · unfold get_vg_name
      simp only []
      rw [initialize_if_required_loaded env _ h, initialize_if_required_loaded env _ h2,
        get_pv_attr_by_path_eq, get_pv_attr_by_path_eq]
      exact attr_of_first_row_append _ _ _ _ hmatch
    · rw [get_free_bytes_fst, get_free_bytes_fst, initialize_if_required_loaded env _ h,
        initialize_if_required_loaded env _ h2, get_pv_attr_by_path_eq, get_pv_attr_by_path_eq]
      simp only []
      rw [attr_of_first_row_append _ _ _ _ hmatch]

/-- Witness of C19: appending a second row for `/dev/sda13` with another free
size to the example cache of the source does not change its free bytes. -/
theorem append_row_monotone_witness :
    (get_free_bytes env_no_lvm
        { loaded example_cache with
          lvm2_pv_cache := (loaded example_cache).lvm2_pv_cache ++ ["/dev/sda13,5,Other,wzx-n-,,"] }
        "/dev/sda13").1 =
      (get_free_bytes env_no_lvm (loaded example_cache) "/dev/sda13").1 :=
  (append_row_monotone.2.2 env_no_lvm (loaded example_cache) "/dev/sda13,5,Other,wzx-n-,,"
    "/dev/sda13" rfl (by decide)).2

/-- C20: a refresh discards the previous cache content.  In one host, a
construction with refresh requested yields the same `lvm_found`, rows and errors
and `initialized = true` from any two prior states, the state with nothing
cached among them, so no row or error from before survives; a construction
without refresh leaves the state unchanged. -/
theorem refresh_discards (env : Env) (s1 s2 : LVM2_PV_Info) :
    ((construct env s1 true).lvm_found = (construct env s2 true).lvm_found ∧
      (construct env s1 true).lvm2_pv_cache = (construct env s2 true).lvm2_pv_cache ∧
      (construct env s1 true).error_messages = (construct env s2 true).error_messages ∧
      (construct env s1 true).lvm2_pv_info_cache_initialized = true ∧
      (construct env s2 true).lvm2_pv_info_cache_initialized = true) ∧
    ((construct env s1 true).lvm2_pv_cache = (construct env initial true).lvm2_pv_cache ∧
      (construct env s1 true).error_messages = (construct env initial true).error_messages) ∧
    (construct env s1 false = s1 ∧ construct_default s1 = s1) := by
  have key : ∀ s : LVM2_PV_Info,
      (construct env s true).lvm_found = decide (env.find_program_in_path "lvm" ≠ "") ∧
      (construct env s true).lvm2_pv_cache = (construct env initial true).lvm2_pv_cache ∧
      (construct env s true).error_messages = (construct env initial true).error_messages := by
    intro s
    unfold construct load_lvm2_pv_info_cache set_command_found execute_command
    simp only [if_true]
    split_ifs <;> simp_all
  obtain ⟨a1, a2, a3⟩ := key s1
  obtain ⟨b1, b2, b3⟩ := key s2
  exact ⟨⟨a1.trans b1.symm, a2.trans b2.symm, a3.trans b3.symm, rfl, rfl⟩, ⟨a2, a3⟩, rfl, rfl⟩

end GParted
